import Mathlib

/-!
Shallow embedding of `libraries/AP_InertialSensor/AP_InertialSensor_Backend.cpp`
(ArduPilot inertial-sensor backend sample-processing core).

Modelling conventions:
* `float` values are modelled by `ℚ` (exact arithmetic surrogate for the
  formula-level properties considered here).
* `Vector3f` is `V3`, a record of three rationals; ArduPilot's `%` operator
  (cross product) is `V3.cross`.
* `uint16_t` / `uint32_t` / `uint64_t` quantities are `ℕ`, with wrapping
  subtraction made explicit (`u32sub`, `u64sub`) where the C++ relies on
  unsigned wraparound, and the `count++` on a `uint16_t` taken mod 2^16.
* Non-finite floats (NaN/Inf) do not exist in `ℚ`; the check
  `v.is_nan() || v.is_inf()` is modelled by an environment-supplied predicate
  `Env.isBad : V3 → Bool`, so the control flow that reacts to non-finite
  filter output can be stated and instantiated concretely.
* The digital filters (`LowPassFilter2p`, `HarmonicNotchFilter`), rotations,
  and temperature-calibration corrections live outside this translation unit;
  they are abstract state types / functions carried in `Env` (the backend code
  only calls `.apply`, `.reset`, `.set_cutoff_frequency`, `.update_params`,
  `.rotate` on them).
* External sinks with no effect on the modelled per-instance state (logging,
  batch sampler, optical flow, module hooks, vibration/clipping bookkeeping,
  accel-calibrator sample feed) are omitted.
* The per-instance arrays `_imu._xxx[instance]` are modelled as the fields of
  one `BState` (the state of a single instance, which is independent of the
  others); `AP_HAL::micros()` / `micros64()` values are passed as arguments.
* Conditional compilation: `HAL_GYROFFT_ENABLED` and
  `AP_INERTIALSENSOR_HARMONICNOTCH_ENABLED` are taken as enabled (their state
  is part of the model); `AP_INERTIALSENSOR_FAST_SAMPLE_WINDOW_ENABLED` is
  taken as disabled (the `#else` branch `_gyro_filtered[instance] = ...`).
-/

/-- Three-component vector of rationals, modelling `Vector3f`. -/
structure V3 where
  x : ℚ
  y : ℚ
  z : ℚ
  deriving DecidableEq, Repr

instance : Add V3 := ⟨fun a b => ⟨a.x + b.x, a.y + b.y, a.z + b.z⟩⟩
instance : Sub V3 := ⟨fun a b => ⟨a.x - b.x, a.y - b.y, a.z - b.z⟩⟩
instance : HMul V3 ℚ V3 := ⟨fun a q => ⟨a.x * q, a.y * q, a.z * q⟩⟩
instance : HDiv V3 ℚ V3 := ⟨fun a q => ⟨a.x / q, a.y / q, a.z / q⟩⟩

/-- Cross product, modelling `Vector3f::operator%`. -/
def V3.cross (a b : V3) : V3 :=
  ⟨a.y * b.z - a.z * b.y, a.z * b.x - a.x * b.z, a.x * b.y - a.y * b.x⟩

/-- Zero vector, modelling `Vector3f::zero()`. -/
def V3.zero : V3 := ⟨0, 0, 0⟩

/-- Wrapping `uint32_t` subtraction `a - b`. -/
def u32sub (a b : ℕ) : ℕ := (a + 2 ^ 32 - b % 2 ^ 32) % 2 ^ 32

/-- Wrapping `uint64_t` subtraction `a - b`. -/
def u64sub (a b : ℕ) : ℕ := (a + 2 ^ 64 - b % 2 ^ 64) % 2 ^ 64

/-- Modelled from the spec: `constrain_float` (AP_Math, outside this
translation unit) clamps a value to `[lo, hi]`. -/
def constrain_float (v lo hi : ℚ) : ℚ :=
  if v < lo then lo else if hi < v then hi else v

/-- Modelled from the spec: `AP_HAL::timeout_expired` (outside this
translation unit) — true when more than `timeout` µs have elapsed between
`past` and `now` on the wrapping 32-bit microsecond clock. -/
def timeout_expired (past now timeout : ℕ) : Bool :=
  decide (timeout < u32sub now past)

/-- Abstract digital filter: per-instance runtime state `σ` with the three
entry points the backend uses (`apply`, `reset`, `set_cutoff_frequency`). -/
structure FilterModel (σ : Type) where
  apply : σ → V3 → σ × V3
  reset : σ → σ
  setCutoff : σ → ℚ → ℚ → σ

/-- One harmonic-notch slot: its parameters as the backend reads them
(`params.enabled()`, `params.hasOption(EnableOnAllIMUs)`, `is_inactive()`)
plus this instance's filter runtime state. -/
structure Notch (σn : Type) where
  enabled : Bool
  enableOnAll : Bool
  inactive : Bool
  state : σn
  deriving Repr

/-- Static configuration and external collaborators of one backend:
filter implementations, the non-finite test, orientation/correction
collaborators, and the per-backend constants. -/
structure Env (σg σn σa σp : Type) where
  gyroLPF : FilterModel σg
  postLPF : FilterModel σp
  notchF : FilterModel σn
  accelLPF : FilterModel σa
  isBad : V3 → Bool
  inst : ℕ
  gyro_inst : ℕ
  gyro_filter_cutoff : ℚ
  accel_filter_cutoff : ℚ
  updateNotch : Notch σn → Bool → ℚ → Notch σn
  rotateGyroOrient : V3 → V3
  rotateAccelOrient : V3 → V3
  rotateBoard : V3 → V3
  tcalGyro : V3 → V3
  tcalAccel : V3 → V3
  gyro_offset : V3
  accel_offset : V3
  accel_scale : V3
  calibrating_gyro : Bool
  calibrating_accel : Bool

/-- Per-instance mutable state of the backend/front-end pair: the
`_imu._xxx[instance]` arrays and the backend's own members, restricted to one
instance. -/
structure BState (σg σn σa σp : Type) where
  -- gyro rate observation (`RawSampleTiming`)
  sample_gyro_count : ℕ
  sample_gyro_start_us : ℕ
  gyro_raw_sample_rate : ℚ
  gyro_last_sample_us : ℕ
  -- gyro delta-angle accumulator
  delta_angle_acc : V3
  delta_angle_acc_dt : ℚ
  last_delta_angle : V3
  last_raw_gyro : V3
  -- gyro filter chain
  gyro_filter : σg
  post_filter_gyro_filter : σp
  notches : List (Notch σn)
  gyro_filtered : V3
  new_gyro_data : Bool
  -- gyro published fields
  gyro_pub : V3
  gyro_healthy : Bool
  delta_angle_pub : V3
  delta_angle_dt_pub : ℚ
  delta_angle_valid : Bool
  -- FFT capture window
  fft_window_phase : ℕ
  gyro_window_size : ℕ
  post_filter_fft : Bool
  gyro_raw_sampling_multiplier : ℚ
  gyro_window : List V3
  last_gyro_for_fft : V3
  gyro_for_fft : V3
  -- gyro filter cutoff cache and error counter
  last_gyro_filter_hz : ℚ
  gyro_error_count : ℕ
  -- accel rate observation
  sample_accel_count : ℕ
  sample_accel_start_us : ℕ
  accel_raw_sample_rate : ℚ
  accel_last_sample_us : ℕ
  -- accel delta-velocity accumulator
  delta_velocity_acc : V3
  delta_velocity_acc_dt : ℚ
  -- accel filter
  accel_filter : σa
  accel_filtered : V3
  new_accel_data : Bool
  -- accel published fields
  accel_pub : V3
  accel_healthy : Bool
  delta_velocity_pub : V3
  delta_velocity_dt_pub : ℚ
  delta_velocity_valid : Bool
  -- accel filter cutoff cache and error counter
  last_accel_filter_hz : ℚ
  accel_error_count : ℕ
  -- primary notification state
  is_primary : Bool
  last_primary_update_us : ℕ
  -- Modelled from the spec: the per-instance killed flag read through
  -- `has_been_killed(instance)` (declared outside this translation unit);
  -- a terminal "instance disabled" marker.
  killed : Bool

/-- `AP_InertialSensor_Backend::_update_sensor_rate`: slowly adjust the
estimated fixed sample rate of a FIFO sensor to the observed arrival rate.
Returns the new `(count, start_us, rate_hz)`. -/
def _update_sensor_rate (count start_us : ℕ) (rate_hz : ℚ) (now : ℕ)
    (converging : Bool) : ℕ × ℕ × ℚ :=
  if start_us = 0 then
    (0, now, rate_hz)
  else
    let count' : ℕ := (count + 1) % 2 ^ 16
    if 1000000 < u32sub now start_us then
      let observed := (count' : ℚ) * 1000000 / (u32sub now start_us : ℚ)
      let filter_constant : ℚ := if converging then 4/5 else 49/50
      let upper_limit : ℚ := if converging then 2 else 21/20
      let lower_limit : ℚ := if converging then 1/2 else 19/20
      let observed := constrain_float observed (rate_hz * lower_limit) (rate_hz * upper_limit)
      (0, now, filter_constant * rate_hz + (1 - filter_constant) * observed)
    else
      (count', start_us, rate_hz)

/-- `notify_gyro_fifo_reset`: zero the gyro rate-observation window. -/
def notify_gyro_fifo_reset {σg σn σa σp} (s : BState σg σn σa σp) : BState σg σn σa σp :=
  { s with sample_gyro_count := 0, sample_gyro_start_us := 0 }

/-- `notify_accel_fifo_reset`: zero the accel rate-observation window. -/
def notify_accel_fifo_reset {σg σn σa σp} (s : BState σg σn σa σp) : BState σg σn σa σp :=
  { s with sample_accel_count := 0, sample_accel_start_us := 0 }

/-- Apply `_update_sensor_rate` to the gyro-side rate-observation fields. -/
def upd_gyro_rate {σg σn σa σp} (s : BState σg σn σa σp) (now : ℕ)
    (converging : Bool) : BState σg σn σa σp :=
  let r := _update_sensor_rate s.sample_gyro_count s.sample_gyro_start_us
      s.gyro_raw_sample_rate now converging
  { s with sample_gyro_count := r.1, sample_gyro_start_us := r.2.1,
           gyro_raw_sample_rate := r.2.2 }

/-- Apply `_update_sensor_rate` to the accel-side rate-observation fields. -/
def upd_accel_rate {σg σn σa σp} (s : BState σg σn σa σp) (now : ℕ)
    (converging : Bool) : BState σg σn σa σp :=
  let r := _update_sensor_rate s.sample_accel_count s.sample_accel_start_us
      s.accel_raw_sample_rate now converging
  { s with sample_accel_count := r.1, sample_accel_start_us := r.2.1,
           accel_raw_sample_rate := r.2.2 }

/-- `save_gyro_window`: capture a (scaled, optionally post-filtered) gyro
sample into the FFT analysis window when the pipeline phase matches the
configured capture phase. -/
def save_gyro_window {σg σn σa σp} (env : Env σg σn σa σp) (s : BState σg σn σa σp)
    (gyro : V3) (phase : ℕ) : BState σg σn σa σp :=
  if s.fft_window_phase = phase then
    if 0 < s.gyro_window_size then
      let scaled := gyro * s.gyro_raw_sampling_multiplier
      let p := if s.post_filter_fft then env.postLPF.apply s.post_filter_gyro_filter scaled
               else (s.post_filter_gyro_filter, scaled)
      { s with post_filter_gyro_filter := p.1,
               gyro_window := s.gyro_window ++ [p.2],
               last_gyro_for_fft := p.2 }
    else
      { s with last_gyro_for_fft := gyro * s.gyro_raw_sampling_multiplier }
  else s

/-- The harmonic-notch loop of `apply_gyro_filters`: walk the notch list,
skipping disabled notches, resetting inactive ones, applying active ones,
capturing an FFT window sample after each enabled notch. Returns the updated
notch list, the state (FFT/post-filter effects), and the running filtered
value. -/
def run_notches {σg σn σa σp} (env : Env σg σn σa σp) (primary : ℕ) :
    List (Notch σn) → BState σg σn σa σp → V3 → ℕ →
    List (Notch σn) × BState σg σn σa σp × V3
  | [], s, g, _ => ([], s, g)
  | n :: rest, s, g, phase =>
    if n.enabled = false then
      let t := run_notches env primary rest s g phase
      (n :: t.1, t.2)
    else
      let inactive := n.inactive || (!n.enableOnAll && (env.inst != primary))
      if inactive then
        let n' := { n with state := env.notchF.reset n.state }
        let s' := save_gyro_window env s g phase
        let t := run_notches env primary rest s' g (phase + 1)
        (n' :: t.1, t.2)
      else
        let p := env.notchF.apply n.state g
        let n' := { n with state := p.1 }
        let s' := save_gyro_window env s p.2 phase
        let t := run_notches env primary rest s' p.2 (phase + 1)
        (n' :: t.1, t.2)

/-- The filtering pipeline of `apply_gyro_filters` up to (and including) the
final low-pass stage, before the non-finite check: FFT capture at phase 0,
harmonic notches, then the low-pass filter. Returns the state with all filter
states advanced and the candidate filtered output. -/
def gyro_filter_pass {σg σn σa σp} (env : Env σg σn σa σp) (s : BState σg σn σa σp)
    (gyro : V3) (primary : ℕ) : BState σg σn σa σp × V3 :=
  let s0 := save_gyro_window env s gyro 0
  let t := run_notches env primary s0.notches s0 gyro 1
  let s1 := { t.2.1 with notches := t.1 }
  let p := env.gyroLPF.apply s1.gyro_filter t.2.2
  ({ s1 with gyro_filter := p.1 }, p.2)

/-- `apply_gyro_filters`: run the pipeline; if the final output is non-finite,
reset every filter stage and keep the previous cycle's filtered value,
otherwise store the new filtered value. -/
def apply_gyro_filters {σg σn σa σp} (env : Env σg σn σa σp) (s : BState σg σn σa σp)
    (gyro : V3) (primary : ℕ) : BState σg σn σa σp :=
  let p := gyro_filter_pass env s gyro primary
  if env.isBad p.2 then
    { p.1 with gyro_filter := env.gyroLPF.reset p.1.gyro_filter,
               post_filter_gyro_filter := env.postLPF.reset p.1.post_filter_gyro_filter,
               notches := p.1.notches.map (fun n => { n with state := env.notchF.reset n.state }),
               gyro_filtered := p.1.gyro_filtered }
  else
    { p.1 with gyro_filtered := p.2 }

/-- `update_primary`: notify the backend when its logical-primary status
changes or the 200 ms heartbeat timeout has expired. The returned boolean
models the one-way `set_primary` notification being invoked. -/
def update_primary {σg σn σa σp} (env : Env σg σn σa σp) (s : BState σg σn σa σp)
    (now32 : ℕ) (primary : ℕ) : BState σg σn σa σp × Bool :=
  let is_new : Bool := env.gyro_inst == primary
  if is_new ≠ s.is_primary ∨ timeout_expired s.last_primary_update_us now32 200000 = true then
    ({ s with is_primary := is_new, last_primary_update_us := now32 }, true)
  else
    (s, false)

/-- The locked accumulate-and-filter block shared by
`_notify_new_gyro_raw_sample` and `_notify_new_delta_angle` (lines 340-371 and
429-459 of the source are textually identical given the current cycle's
`delta_angle`): coning correction, staleness reset, accumulation, filter
application, new-data flag, then `update_primary`. `last_sample_us` is the
pre-call last-sample time read before the branch updated it. -/
def gyro_accum {σg σn σa σp} (env : Env σg σn σa σp) (s : BState σg σn σa σp)
    (gyro : V3) (delta_angle0 : V3) (dt0 : ℚ) (last_sample_us now32 now64 : ℕ)
    (primary : ℕ) : BState σg σn σa σp :=
  let delta_coning : V3 := ((s.delta_angle_acc + s.last_delta_angle * ((1 : ℚ)/6)).cross
      delta_angle0) * ((1 : ℚ)/2)
  let stale := 100000 < u64sub now64 last_sample_us
  let s1 := if stale then
      { s with delta_angle_acc := V3.zero, delta_angle_acc_dt := 0 } else s
  let dt := if stale then 0 else dt0
  let delta_angle := if stale then V3.zero else delta_angle0
  let s2 := { s1 with
      delta_angle_acc := s1.delta_angle_acc + delta_angle + delta_coning,
      delta_angle_acc_dt := s1.delta_angle_acc_dt + dt,
      last_delta_angle := delta_angle,
      last_raw_gyro := gyro }
  let s3 := apply_gyro_filters env s2 gyro primary
  let s4 := { s3 with new_gyro_data := true }
  (update_primary env s4 now32 primary).1

/-- `_notify_new_gyro_raw_sample`: killed guard, rate estimation, dt selection
(timestamped vs FIFO path with the 40 Hz floor), trapezoidal delta, then the
shared accumulate block. -/
def _notify_new_gyro_raw_sample {σg σn σa σp} (env : Env σg σn σa σp)
    (s : BState σg σn σa σp) (gyro : V3) (sample_us now32 now64 : ℕ)
    (converging : Bool) (primary : ℕ) : BState σg σn σa σp :=
  if s.killed then s else
  let s1 := upd_gyro_rate s now32 converging
  let last_sample_us := s1.gyro_last_sample_us
  if sample_us ≠ 0 ∧ s1.gyro_last_sample_us ≠ 0 then
    let dt := (u64sub sample_us s1.gyro_last_sample_us : ℚ) * (1/1000000)
    let s2 := { s1 with gyro_last_sample_us := sample_us }
    gyro_accum env s2 gyro ((gyro + s2.last_raw_gyro) * ((1 : ℚ)/2) * dt) dt
      last_sample_us now32 now64 primary
  else if s1.gyro_raw_sample_rate < 40 then s1
  else
    let dt := 1 / s1.gyro_raw_sample_rate
    let s2 := { s1 with gyro_last_sample_us := now64 }
    gyro_accum env s2 gyro ((gyro + s2.last_raw_gyro) * ((1 : ℚ)/2) * dt) dt
      last_sample_us now32 now64 primary

/-- `_rotate_and_correct_gyro`: sensor-orientation rotation, then (unless
calibrating) temperature correction and offset subtraction, then board-frame
rotation. -/
def _rotate_and_correct_gyro {σg σn σa σp} (env : Env σg σn σa σp) (gyro : V3) : V3 :=
  let g1 := env.rotateGyroOrient gyro
  let g2 := if env.calibrating_gyro then g1 else env.tcalGyro g1 - env.gyro_offset
  env.rotateBoard g2

/-- `_rotate_and_correct_accel`: sensor-orientation rotation, then (unless
calibrating) temperature correction, offset subtraction and per-axis scaling,
then board-frame rotation. -/
def _rotate_and_correct_accel {σg σn σa σp} (env : Env σg σn σa σp) (accel : V3) : V3 :=
  let a1 := env.rotateAccelOrient accel
  let a2 := if env.calibrating_accel then a1 else
    let t := env.tcalAccel a1 - env.accel_offset
    V3.mk (t.x * env.accel_scale.x) (t.y * env.accel_scale.y) (t.z * env.accel_scale.z)
  env.rotateBoard a2

/-- `_notify_new_delta_angle`: killed guard, rate estimation, 40 Hz floor
(silent drop), reconstruct the rate vector from the delta, rotate/correct,
direct delta `gyro * dt`, then the shared accumulate block. -/
def _notify_new_delta_angle {σg σn σa σp} (env : Env σg σn σa σp)
    (s : BState σg σn σa σp) (dangle : V3) (now32 now64 : ℕ)
    (converging : Bool) (primary : ℕ) : BState σg σn σa σp :=
  if s.killed then s else
  let s1 := upd_gyro_rate s now32 converging
  let last_sample_us := s1.gyro_last_sample_us
  if s1.gyro_raw_sample_rate < 40 then s1
  else
    let dt := 1 / s1.gyro_raw_sample_rate
    let s2 := { s1 with gyro_last_sample_us := now64 }
    let gyro := _rotate_and_correct_gyro env (dangle / dt)
    gyro_accum env s2 gyro (gyro * dt) dt last_sample_us now32 now64 primary

/-- The locked delta-velocity accumulate block shared by
`_notify_new_accel_raw_sample` and `_notify_new_delta_velocity`: staleness
reset, `accel * dt` accumulation, accel low-pass filter with reset-on-
non-finite (note: the just-computed filtered value is stored even when it is
non-finite — only the filter state is reset), new-data flag. -/
def accel_accum {σg σn σa σp} (env : Env σg σn σa σp) (s : BState σg σn σa σp)
    (accel : V3) (dt0 : ℚ) (last_sample_us now64 : ℕ) : BState σg σn σa σp :=
  let stale := 100000 < u64sub now64 last_sample_us
  let s1 := if stale then
      { s with delta_velocity_acc := V3.zero, delta_velocity_acc_dt := 0 } else s
  let dt := if stale then 0 else dt0
  let s2 := { s1 with
      delta_velocity_acc := s1.delta_velocity_acc + accel * dt,
      delta_velocity_acc_dt := s1.delta_velocity_acc_dt + dt }
  let p := env.accelLPF.apply s2.accel_filter accel
  let s3 := { s2 with accel_filter := p.1, accel_filtered := p.2 }
  let s4 := if env.isBad s3.accel_filtered then
      { s3 with accel_filter := env.accelLPF.reset s3.accel_filter } else s3
  { s4 with new_accel_data := true }

/-- `_notify_new_accel_raw_sample`: killed guard, rate estimation, dt
selection (timestamped vs FIFO path with the 40 Hz floor), then the shared
delta-velocity accumulate block. The `fsync_set` flag is consumed only by the
external module hook. -/
def _notify_new_accel_raw_sample {σg σn σa σp} (env : Env σg σn σa σp)
    (s : BState σg σn σa σp) (accel : V3) (sample_us now32 now64 : ℕ)
    (converging : Bool) (_fsync_set : Bool) : BState σg σn σa σp :=
  if s.killed then s else
  let s1 := upd_accel_rate s now32 converging
  let last_sample_us := s1.accel_last_sample_us
  if sample_us ≠ 0 ∧ s1.accel_last_sample_us ≠ 0 then
    let dt := (u64sub sample_us s1.accel_last_sample_us : ℚ) * (1/1000000)
    let s2 := { s1 with accel_last_sample_us := sample_us }
    accel_accum env s2 accel dt last_sample_us now64
  else if s1.accel_raw_sample_rate < 40 then s1
  else
    let dt := 1 / s1.accel_raw_sample_rate
    let s2 := { s1 with accel_last_sample_us := now64 }
    accel_accum env s2 accel dt last_sample_us now64

/-- `_notify_new_delta_velocity`: killed guard, rate estimation, 40 Hz floor
(silent drop), reconstruct acceleration from the delta, rotate/correct, then
the shared delta-velocity accumulate block. -/
def _notify_new_delta_velocity {σg σn σa σp} (env : Env σg σn σa σp)
    (s : BState σg σn σa σp) (dvel : V3) (now32 now64 : ℕ)
    (converging : Bool) : BState σg σn σa σp :=
  if s.killed then s else
  let s1 := upd_accel_rate s now32 converging
  let last_sample_us := s1.accel_last_sample_us
  if s1.accel_raw_sample_rate < 40 then s1
  else
    let dt := 1 / s1.accel_raw_sample_rate
    let s2 := { s1 with accel_last_sample_us := now64 }
    let accel := _rotate_and_correct_accel env (dvel / dt)
    accel_accum env s2 accel dt last_sample_us now64

/-- `_publish_gyro`: move the accumulated delta angle and dt into the
front-end-visible fields, mark them valid, zero the accumulator. -/
def _publish_gyro {σg σn σa σp} (s : BState σg σn σa σp) (gyro : V3) :
    BState σg σn σa σp :=
  if s.killed then s else
  { s with gyro_pub := gyro, gyro_healthy := true,
           delta_angle_pub := s.delta_angle_acc,
           delta_angle_dt_pub := s.delta_angle_acc_dt,
           delta_angle_valid := true,
           delta_angle_acc := V3.zero,
           delta_angle_acc_dt := 0 }

/-- `_publish_accel`: move the accumulated delta velocity and dt into the
front-end-visible fields, mark them valid, zero the accumulator. (The
accel-calibrator sample feed is an external collaborator and is omitted.) -/
def _publish_accel {σg σn σa σp} (s : BState σg σn σa σp) (accel : V3) :
    BState σg σn σa σp :=
  if s.killed then s else
  { s with accel_pub := accel, accel_healthy := true,
           delta_velocity_pub := s.delta_velocity_acc,
           delta_velocity_dt_pub := s.delta_velocity_acc_dt,
           delta_velocity_valid := true,
           delta_velocity_acc := V3.zero,
           delta_velocity_acc_dt := 0 }

/-- `update_gyro_filters`: retune the gyro low-pass (and FFT tap) cutoff when
the configured cutoff changed or sensors are converging; push parameter
updates into every enabled notch. -/
def update_gyro_filters {σg σn σa σp} (env : Env σg σn σa σp)
    (s : BState σg σn σa σp) (converging : Bool) : BState σg σn σa σp :=
  let gyro_rate := s.gyro_raw_sample_rate
  let s1 := if s.last_gyro_filter_hz ≠ env.gyro_filter_cutoff ∨ converging = true then
      { s with gyro_filter := env.gyroLPF.setCutoff s.gyro_filter gyro_rate env.gyro_filter_cutoff,
               post_filter_gyro_filter := env.postLPF.setCutoff s.post_filter_gyro_filter gyro_rate env.gyro_filter_cutoff,
               last_gyro_filter_hz := env.gyro_filter_cutoff }
    else s
  { s1 with notches :=
      s1.notches.map (fun n => if n.enabled then env.updateNotch n converging gyro_rate else n) }

/-- `update_gyro`: killed guard; publish pending filtered/integrated gyro
data (copying the FFT tap to the front end) and clear the new-data flag, then
retune filters. -/
def update_gyro {σg σn σa σp} (env : Env σg σn σa σp) (s : BState σg σn σa σp)
    (converging : Bool) : BState σg σn σa σp :=
  if s.killed then s else
  let s1 := if s.new_gyro_data then
      let t := _publish_gyro s s.gyro_filtered
      { t with gyro_for_fft := t.last_gyro_for_fft, new_gyro_data := false }
    else s
  update_gyro_filters env s1 converging

/-- `update_accel_filters`: retune the accel low-pass cutoff when the
configured cutoff changed. -/
def update_accel_filters {σg σn σa σp} (env : Env σg σn σa σp)
    (s : BState σg σn σa σp) : BState σg σn σa σp :=
  if s.last_accel_filter_hz ≠ env.accel_filter_cutoff then
    { s with accel_filter := env.accelLPF.setCutoff s.accel_filter s.accel_raw_sample_rate env.accel_filter_cutoff,
             last_accel_filter_hz := env.accel_filter_cutoff }
  else s

/-- `update_accel`: killed guard; publish pending filtered/integrated accel
data and clear the new-data flag, then retune the accel filter. -/
def update_accel {σg σn σa σp} (env : Env σg σn σa σp) (s : BState σg σn σa σp) :
    BState σg σn σa σp :=
  if s.killed then s else
  let s1 := if s.new_accel_data then
      let t := _publish_accel s s.accel_filtered
      { t with new_accel_data := false }
    else s
  update_accel_filters env s1

/-- The externally invokable operations of the backend core (§6 of the spec):
producer-side notifications and consumer-side updates, each carrying the
clock readings and global flags the C++ reads from its environment. -/
inductive Op where
  | gyroRaw (gyro : V3) (sample_us now32 now64 : ℕ) (converging : Bool) (primary : ℕ)
  | deltaAngle (dangle : V3) (now32 now64 : ℕ) (converging : Bool) (primary : ℕ)
  | accelRaw (accel : V3) (sample_us now32 now64 : ℕ) (converging : Bool) (fsync : Bool)
  | deltaVel (dvel : V3) (now32 now64 : ℕ) (converging : Bool)
  | updGyro (converging : Bool)
  | updAccel
  | gyroFifoReset
  | accelFifoReset
  | updPrimary (now32 : ℕ) (primary : ℕ)
  deriving Repr

/-- Interpret one operation as a state transformer. -/
def applyOp {σg σn σa σp} (env : Env σg σn σa σp) (op : Op)
    (s : BState σg σn σa σp) : BState σg σn σa σp :=
  match op with
  | .gyroRaw g su n32 n64 c p => _notify_new_gyro_raw_sample env s g su n32 n64 c p
  | .deltaAngle d n32 n64 c p => _notify_new_delta_angle env s d n32 n64 c p
  | .accelRaw a su n32 n64 c f => _notify_new_accel_raw_sample env s a su n32 n64 c f
  | .deltaVel d n32 n64 c => _notify_new_delta_velocity env s d n32 n64 c
  | .updGyro c => update_gyro env s c
  | .updAccel => update_accel env s
  | .gyroFifoReset => notify_gyro_fifo_reset s
  | .accelFifoReset => notify_accel_fifo_reset s
  | .updPrimary n32 p => (update_primary env s n32 p).1

/-- Ghost history for the accumulator invariant: the `dt` values folded into
each delta accumulator since its last drain. -/
structure Ghost where
  gyroDts : List ℚ
  accelDts : List ℚ
  deriving Repr

/-- Sum of a dt history. -/
def dtsSum (l : List ℚ) : ℚ := l.foldr (· + ·) 0

/-- Whether a gyro-side notification with the given pre-read rate state is
dropped by the 40 Hz floor (FIFO path only for raw samples). -/
def gyroDropped {σg σn σa σp} (s1 : BState σg σn σa σp) (sample_us : ℕ) : Prop :=
  ¬ (sample_us ≠ 0 ∧ s1.gyro_last_sample_us ≠ 0) ∧ s1.gyro_raw_sample_rate < 40

instance {σg σn σa σp} (s1 : BState σg σn σa σp) (su : ℕ) :
    Decidable (gyroDropped s1 su) := by unfold gyroDropped; infer_instance

/-- Ghost bookkeeping mirroring each operation: a staleness reset clears the
history, an accepted sample appends the dt the code folded in (0 after a
reset), a drain (publish) clears it. -/
def ghostStep {σg σn σa σp} (_env : Env σg σn σa σp) (op : Op)
    (s : BState σg σn σa σp) (g : Ghost) : Ghost :=
  match op with
  | .gyroRaw _ su n32 n64 c _ =>
    if s.killed then g else
    let s1 := upd_gyro_rate s n32 c
    if gyroDropped s1 su then g else
    let stale := 100000 < u64sub n64 s1.gyro_last_sample_us
    let dt : ℚ := if stale then 0 else
      if su ≠ 0 ∧ s1.gyro_last_sample_us ≠ 0 then
        (u64sub su s1.gyro_last_sample_us : ℚ) * (1/1000000)
      else 1 / s1.gyro_raw_sample_rate
    { g with gyroDts := (if stale then [] else g.gyroDts) ++ [dt] }
  | .deltaAngle _ n32 n64 c _ =>
    if s.killed then g else
    let s1 := upd_gyro_rate s n32 c
    if s1.gyro_raw_sample_rate < 40 then g else
    let stale := 100000 < u64sub n64 s1.gyro_last_sample_us
    let dt : ℚ := if stale then 0 else 1 / s1.gyro_raw_sample_rate
    { g with gyroDts := (if stale then [] else g.gyroDts) ++ [dt] }
  | .accelRaw _ su n32 n64 c _ =>
    if s.killed then g else
    let s1 := upd_accel_rate s n32 c
    if ¬ (su ≠ 0 ∧ s1.accel_last_sample_us ≠ 0) ∧ s1.accel_raw_sample_rate < 40 then g else
    let stale := 100000 < u64sub n64 s1.accel_last_sample_us
    let dt : ℚ := if stale then 0 else
      if su ≠ 0 ∧ s1.accel_last_sample_us ≠ 0 then
        (u64sub su s1.accel_last_sample_us : ℚ) * (1/1000000)
      else 1 / s1.accel_raw_sample_rate
    { g with accelDts := (if stale then [] else g.accelDts) ++ [dt] }
  | .deltaVel _ n32 n64 c =>
    if s.killed then g else
    let s1 := upd_accel_rate s n32 c
    if s1.accel_raw_sample_rate < 40 then g else
    let stale := 100000 < u64sub n64 s1.accel_last_sample_us
    let dt : ℚ := if stale then 0 else 1 / s1.accel_raw_sample_rate
    { g with accelDts := (if stale then [] else g.accelDts) ++ [dt] }
  | .updGyro _ =>
    if s.killed then g else
    if s.new_gyro_data then { g with gyroDts := [] } else g
  | .updAccel =>
    if s.killed then g else
    if s.new_accel_data then { g with accelDts := [] } else g
  | _ => g

/-- States reachable (together with their ghost dt history) from any start
state whose accumulated dts are zero — the zero-initialised front end. -/
inductive Reachable {σg σn σa σp} (env : Env σg σn σa σp) :
    BState σg σn σa σp → Ghost → Prop
  | init (s : BState σg σn σa σp)
      (h1 : s.delta_angle_acc_dt = 0) (h2 : s.delta_velocity_acc_dt = 0) :
      Reachable env s ⟨[], []⟩
  | step {s : BState σg σn σa σp} {g : Ghost} (op : Op) :
      Reachable env s g → Reachable env (applyOp env op s) (ghostStep env op s g)

/-- Trivial stateless filter used to instantiate the abstract filter slots in
concrete runs. -/
def trivF : FilterModel Unit :=
  { apply := fun _ v => ((), v), reset := fun _ => (), setCutoff := fun _ _ _ => () }

/-- Concrete environment for witnesses: trivial filters, identity
rotations/corrections, a decidable "non-finite" marker (`x = 1000`). -/
def envU : Env Unit Unit Unit Unit :=
  { gyroLPF := trivF, postLPF := trivF, notchF := trivF, accelLPF := trivF,
    isBad := fun v => decide (v.x = 1000),
    inst := 0, gyro_inst := 0,
    gyro_filter_cutoff := 0, accel_filter_cutoff := 0,
    updateNotch := fun n _ _ => n,
    rotateGyroOrient := id, rotateAccelOrient := id, rotateBoard := id,
    tcalGyro := id, tcalAccel := id,
    gyro_offset := V3.zero, accel_offset := V3.zero, accel_scale := ⟨1, 1, 1⟩,
    calibrating_gyro := false, calibrating_accel := false }

/-- Concrete zero-initialised per-instance state for witnesses. -/
def st0 : BState Unit Unit Unit Unit :=
  { sample_gyro_count := 0, sample_gyro_start_us := 0, gyro_raw_sample_rate := 0,
    gyro_last_sample_us := 0,
    delta_angle_acc := V3.zero, delta_angle_acc_dt := 0,
    last_delta_angle := V3.zero, last_raw_gyro := V3.zero,
    gyro_filter := (), post_filter_gyro_filter := (), notches := [],
    gyro_filtered := V3.zero, new_gyro_data := false,
    gyro_pub := V3.zero, gyro_healthy := false,
    delta_angle_pub := V3.zero, delta_angle_dt_pub := 0, delta_angle_valid := false,
    fft_window_phase := 0, gyro_window_size := 0, post_filter_fft := false,
    gyro_raw_sampling_multiplier := 1, gyro_window := [],
    last_gyro_for_fft := V3.zero, gyro_for_fft := V3.zero,
    last_gyro_filter_hz := 0, gyro_error_count := 0,
    sample_accel_count := 0, sample_accel_start_us := 0, accel_raw_sample_rate := 0,
    accel_last_sample_us := 0,
    delta_velocity_acc := V3.zero, delta_velocity_acc_dt := 0,
    accel_filter := (), accel_filtered := V3.zero, new_accel_data := false,
    accel_pub := V3.zero, accel_healthy := false,
    delta_velocity_pub := V3.zero, delta_velocity_dt_pub := 0,
    delta_velocity_valid := false,
    last_accel_filter_hz := 0, accel_error_count := 0,
    is_primary := false, last_primary_update_us := 0, killed := false }

/-- Environment whose accel low-pass filter emits the designated non-finite
marker value, used to exercise the non-finite recovery path concretely. -/
def envBad : Env Unit Unit Unit Unit :=
  { envU with accelLPF :=
      { apply := fun st _ => (st, ⟨1000, 0, 0⟩), reset := fun st => st,
        setCutoff := fun st _ _ => st } }

/-- The per-cycle `dt` selected by the raw gyro path: the provided-timestamp
difference when both `sample_us` and the previous sample time are nonzero
(non-FIFO sensor), else the reciprocal of the estimated rate (FIFO sensor).
`s1` is the state after the rate-estimation step. -/
def gyro_dt_choice {σg σn σa σp} (s1 : BState σg σn σa σp) (su : ℕ) : ℚ :=
  if su ≠ 0 ∧ s1.gyro_last_sample_us ≠ 0
    then (u64sub su s1.gyro_last_sample_us : ℚ) * (1/1000000)
    else 1 / s1.gyro_raw_sample_rate

/-- The per-cycle `dt` selected by the raw accel path. -/
def accel_dt_choice {σg σn σa σp} (s1 : BState σg σn σa σp) (su : ℕ) : ℚ :=
  if su ≠ 0 ∧ s1.accel_last_sample_us ≠ 0
    then (u64sub su s1.accel_last_sample_us : ℚ) * (1/1000000)
    else 1 / s1.accel_raw_sample_rate

/-- Concrete mid-run state: both sensors last sampled at t = 1 s, estimated
rates 400 Hz, non-trivial accumulators and caches. -/
def stRun : BState Unit Unit Unit Unit :=
  { st0 with gyro_last_sample_us := 1000000, gyro_raw_sample_rate := 400,
             accel_last_sample_us := 1000000, accel_raw_sample_rate := 400,
             accel_filtered := ⟨7, 7, 7⟩, last_raw_gyro := ⟨1, 1, 0⟩,
             last_delta_angle := ⟨0, 1, 0⟩, delta_angle_acc := ⟨2, 0, 0⟩,
             delta_angle_acc_dt := 3/100, delta_velocity_acc := ⟨1, 1, 1⟩,
             delta_velocity_acc_dt := 3/100 }

/-! Frame lemmas: each internal step only rewrites a known set of fields. -/

theorem save_gyro_window_shape {σg σn σa σp} (env : Env σg σn σa σp)
    (s : BState σg σn σa σp) (g : V3) (ph : ℕ) :
    ∃ pf gw lf, save_gyro_window env s g ph =
      { s with post_filter_gyro_filter := pf, gyro_window := gw, last_gyro_for_fft := lf } :=
  by
  unfold save_gyro_window
  split
  · split
    · exact ⟨_, _, _, rfl⟩
    · exact ⟨s.post_filter_gyro_filter, s.gyro_window, _, rfl⟩
  · exact ⟨s.post_filter_gyro_filter, s.gyro_window, s.last_gyro_for_fft, rfl⟩

theorem run_notches_shape {σg σn σa σp} (env : Env σg σn σa σp) (p : ℕ)
    (l : List (Notch σn)) (s : BState σg σn σa σp) (g : V3) (ph : ℕ) :
    ∃ pf gw lf, (run_notches env p l s g ph).2.1 =
      { s with post_filter_gyro_filter := pf, gyro_window := gw, last_gyro_for_fft := lf } :=
  by
  induction l generalizing s g ph with
  | nil =>
    exact ⟨s.post_filter_gyro_filter, s.gyro_window, s.last_gyro_for_fft, rfl⟩
  | cons n rest ih =>
    unfold run_notches
    dsimp only
    split
    · exact ih s g ph
    · split
      · obtain ⟨pf0, gw0, lf0, h0⟩ := save_gyro_window_shape env s g ph
        obtain ⟨pf1, gw1, lf1, h1⟩ := ih (save_gyro_window env s g ph) g (ph + 1)
        exact ⟨pf1, gw1, lf1, by rw [h1, h0]⟩
      · obtain ⟨pf0, gw0, lf0, h0⟩ :=
          save_gyro_window_shape env s (env.notchF.apply n.state g).2 ph
        obtain ⟨pf1, gw1, lf1, h1⟩ :=
          ih (save_gyro_window env s (env.notchF.apply n.state g).2 ph) (env.notchF.apply n.state g).2 (ph + 1)
        exact ⟨pf1, gw1, lf1, by rw [h1, h0]⟩

theorem gyro_filter_pass_shape {σg σn σa σp} (env : Env σg σn σa σp)
    (s : BState σg σn σa σp) (g : V3) (p : ℕ) :
    ∃ gf pf nl gw lf, (gyro_filter_pass env s g p).1 =
      { s with gyro_filter := gf, post_filter_gyro_filter := pf, notches := nl,
               gyro_window := gw, last_gyro_for_fft := lf } :=
  by
  unfold gyro_filter_pass
  dsimp only
  obtain ⟨pf0, gw0, lf0, h0⟩ := save_gyro_window_shape env s g 0
  obtain ⟨pf1, gw1, lf1, h1⟩ := run_notches_shape env p (save_gyro_window env s g 0).notches
    (save_gyro_window env s g 0) g 1
  exact ⟨_, _, _, _, _, by rw [h1, h0]⟩

theorem apply_gyro_filters_shape {σg σn σa σp} (env : Env σg σn σa σp)
    (s : BState σg σn σa σp) (g : V3) (p : ℕ) :
    ∃ gf pf nl gw lf v, apply_gyro_filters env s g p =
      { s with gyro_filter := gf, post_filter_gyro_filter := pf, notches := nl,
               gyro_window := gw, last_gyro_for_fft := lf, gyro_filtered := v } :=
  by
  unfold apply_gyro_filters
  dsimp only
  obtain ⟨gf0, pf0, nl0, gw0, lf0, h0⟩ := gyro_filter_pass_shape env s g p
  split
  · exact ⟨_, _, _, _, _, _, by rw [h0]⟩
  · exact ⟨_, _, _, _, _, _, by rw [h0]⟩

theorem update_primary_shape {σg σn σa σp} (env : Env σg σn σa σp)
    (s : BState σg σn σa σp) (now32 p : ℕ) :
    ∃ b t, (update_primary env s now32 p).1 =
      { s with is_primary := b, last_primary_update_us := t } :=
  by
  unfold update_primary
  dsimp only
  split
  · exact ⟨_, _, rfl⟩
  · exact ⟨s.is_primary, s.last_primary_update_us, rfl⟩

theorem update_gyro_filters_shape {σg σn σa σp} (env : Env σg σn σa σp)
    (s : BState σg σn σa σp) (c : Bool) :
    ∃ gf pf hz nl, update_gyro_filters env s c =
      { s with gyro_filter := gf, post_filter_gyro_filter := pf,
               last_gyro_filter_hz := hz, notches := nl } :=
  by
  unfold update_gyro_filters
  dsimp only
  split
  · exact ⟨_, _, _, _, rfl⟩
  · exact ⟨s.gyro_filter, s.post_filter_gyro_filter, s.last_gyro_filter_hz, _, rfl⟩

theorem update_accel_filters_shape {σg σn σa σp} (env : Env σg σn σa σp)
    (s : BState σg σn σa σp) :
    ∃ af hz, update_accel_filters env s =
      { s with accel_filter := af, last_accel_filter_hz := hz } :=
  by
  unfold update_accel_filters
  split
  · exact ⟨_, _, rfl⟩
  · exact ⟨s.accel_filter, s.last_accel_filter_hz, rfl⟩

theorem accel_accum_shape {σg σn σa σp} (env : Env σg σn σa σp)
    (s : BState σg σn σa σp) (a : V3) (dt0 : ℚ) (last n64 : ℕ) :
    ∃ dv dvdt af av, accel_accum env s a dt0 last n64 =
      { s with delta_velocity_acc := dv, delta_velocity_acc_dt := dvdt,
               accel_filter := af, accel_filtered := av, new_accel_data := true } :=
  by
  unfold accel_accum
  dsimp only
  split <;> split <;> exact ⟨_, _, _, _, rfl⟩

theorem gyro_accum_shape {σg σn σa σp} (env : Env σg σn σa σp)
    (s : BState σg σn σa σp) (g d0 : V3) (dt0 : ℚ) (last n32 n64 p : ℕ) :
    ∃ da dadt ld lr gf pf nl gw lf v b t, gyro_accum env s g d0 dt0 last n32 n64 p =
      { s with delta_angle_acc := da, delta_angle_acc_dt := dadt,
               last_delta_angle := ld, last_raw_gyro := lr,
               gyro_filter := gf, post_filter_gyro_filter := pf, notches := nl,
               gyro_window := gw, last_gyro_for_fft := lf, gyro_filtered := v,
               new_gyro_data := true, is_primary := b, last_primary_update_us := t } :=
  by
  unfold gyro_accum
  dsimp only
  split
  all_goals
    obtain ⟨gf0, pf0, nl0, gw0, lf0, v0, h0⟩ := apply_gyro_filters_shape env _ g p
    rw [h0]
    obtain ⟨b1, t1, h1⟩ := update_primary_shape env _ n32 p
    rw [h1]
    exact ⟨_, _, _, _, _, _, _, _, _, _, _, _, rfl⟩

/-- Auxiliary: the wrapping 32-bit difference of a time with itself is zero. -/
theorem u32sub_self (n : ℕ) : u32sub n n = 0 := by
  unfold u32sub
  omega

/-- Claim C4: `_update_sensor_rate` — when `window_start_us` is zero the call
only (re)captures the window (start time set to now, count zeroed, rate
untouched); otherwise it increments the count, and once the elapsed window
exceeds 1,000,000 µs it computes `observed = count * 1e6 / elapsed`, clamps
it to `[rate*0.95, rate*1.05]` normally or `[rate*0.5, rate*2.0]` while
converging, blends with constant 0.98 (0.8 while converging) and resets the
window. -/
theorem claim_C4 (count start_us : ℕ) (rate_hz : ℚ) (now : ℕ) (conv : Bool) :
    (start_us = 0 →
      _update_sensor_rate count start_us rate_hz now conv = (0, now, rate_hz)) ∧
    (start_us ≠ 0 → u32sub now start_us ≤ 1000000 →
      _update_sensor_rate count start_us rate_hz now conv =
        ((count + 1) % 2 ^ 16, start_us, rate_hz)) ∧
    (start_us ≠ 0 → 1000000 < u32sub now start_us →
      _update_sensor_rate count start_us rate_hz now conv =
        (0, now,
          (if conv then (4 : ℚ)/5 else 49/50) * rate_hz +
            (1 - (if conv then (4 : ℚ)/5 else 49/50)) *
              constrain_float ((((count + 1) % 2 ^ 16 : ℕ) : ℚ) * 1000000 / (u32sub now start_us : ℚ))
                (rate_hz * (if conv then (1 : ℚ)/2 else 19/20))
                (rate_hz * (if conv then (2 : ℚ) else 21/20)))) := by
  refine ⟨fun h => by simp [_update_sensor_rate, h], fun h1 h2 => ?_, fun h1 h3 => ?_⟩
  · simp [_update_sensor_rate, h1, Nat.not_lt.mpr h2]
  · simp [_update_sensor_rate, h1, h3]

/-- Witness for C4 at concrete inputs exercising all three branches. -/
theorem claim_C4_witness :
    _update_sensor_rate 3 0 400 7 false = (0, 7, 400) ∧
    _update_sensor_rate 3 5 400 1000005 false = (4, 5, 400) ∧
    _update_sensor_rate 0 5 400 2000005 false = (0, 2000005, 1998/5) := by
  refine ⟨(claim_C4 3 0 400 7 false).1 rfl,
          (claim_C4 3 5 400 1000005 false).2.1 (by decide) (by decide), ?_⟩
  have h := (claim_C4 0 5 400 2000005 false).2.2 (by decide) (by decide)
  rw [h]
  norm_num [constrain_float, u32sub]

/-- Claim C5: publishing a non-killed instance moves the accumulated delta
and its dt into the externally visible fields, marks them valid, and zeroes
both accumulator fields. -/
theorem claim_C5 {σg σn σa σp} (s : BState σg σn σa σp) (g a : V3)
    (h : s.killed = false) :
    ((_publish_gyro s g).delta_angle_pub = s.delta_angle_acc ∧
     (_publish_gyro s g).delta_angle_dt_pub = s.delta_angle_acc_dt ∧
     (_publish_gyro s g).delta_angle_valid = true ∧
     (_publish_gyro s g).delta_angle_acc = V3.zero ∧
     (_publish_gyro s g).delta_angle_acc_dt = 0) ∧
    ((_publish_accel s a).delta_velocity_pub = s.delta_velocity_acc ∧
     (_publish_accel s a).delta_velocity_dt_pub = s.delta_velocity_acc_dt ∧
     (_publish_accel s a).delta_velocity_valid = true ∧
     (_publish_accel s a).delta_velocity_acc = V3.zero ∧
     (_publish_accel s a).delta_velocity_acc_dt = 0) := by
  unfold _publish_gyro _publish_accel
  simp [h]

/-- Witness for C5 on a concrete state with non-trivial accumulators. -/
theorem claim_C5_witness :
    ((_publish_gyro { st0 with delta_angle_acc := ⟨1, 2, 3⟩, delta_angle_acc_dt := 4 }
        ⟨9, 9, 9⟩).delta_angle_pub = ⟨1, 2, 3⟩ ∧
     (_publish_gyro { st0 with delta_angle_acc := ⟨1, 2, 3⟩, delta_angle_acc_dt := 4 }
        ⟨9, 9, 9⟩).delta_angle_dt_pub = 4 ∧
     (_publish_gyro { st0 with delta_angle_acc := ⟨1, 2, 3⟩, delta_angle_acc_dt := 4 }
        ⟨9, 9, 9⟩).delta_angle_acc = V3.zero ∧
     (_publish_gyro { st0 with delta_angle_acc := ⟨1, 2, 3⟩, delta_angle_acc_dt := 4 }
        ⟨9, 9, 9⟩).delta_angle_acc_dt = 0) := by
  have h := claim_C5
    { st0 with delta_angle_acc := ⟨1, 2, 3⟩, delta_angle_acc_dt := 4 } ⟨9, 9, 9⟩ ⟨8, 8, 8⟩ rfl
  exact ⟨h.1.1, h.1.2.1, h.1.2.2.2.1, h.1.2.2.2.2⟩

/-- Claim C10: a FIFO-reset notification zeroes only the rate-observation
count and window start time of that instance, and the next
`_update_sensor_rate` call (start time now zero) only captures a new window
start without changing the rate estimate. -/
theorem claim_C10 {σg σn σa σp} (s : BState σg σn σa σp) (rate : ℚ) (now : ℕ)
    (conv : Bool) :
    notify_gyro_fifo_reset s =
      { s with sample_gyro_count := 0, sample_gyro_start_us := 0 } ∧
    notify_accel_fifo_reset s =
      { s with sample_accel_count := 0, sample_accel_start_us := 0 } ∧
    _update_sensor_rate (notify_gyro_fifo_reset s).sample_gyro_count
      (notify_gyro_fifo_reset s).sample_gyro_start_us rate now conv = (0, now, rate) := by
  refine ⟨rfl, rfl, ?_⟩
  simp [notify_gyro_fifo_reset, _update_sensor_rate]

/-- Claim C7: a delta-angle or delta-velocity notification on a non-killed
instance whose (freshly re-estimated) raw sample rate is below 40 Hz is
silently dropped: the resulting state is exactly the input state with only
the rate-observation fields advanced — no accumulation, no filtering, no
last-sample-time update, no error-counter change. -/
theorem claim_C7 {σg σn σa σp} (env : Env σg σn σa σp) (s : BState σg σn σa σp)
    (d dv : V3) (n32 n64 m32 m64 : ℕ) (cg ca : Bool) (p : ℕ)
    (hk : s.killed = false)
    (hg : (upd_gyro_rate s n32 cg).gyro_raw_sample_rate < 40)
    (ha : (upd_accel_rate s m32 ca).accel_raw_sample_rate < 40) :
    _notify_new_delta_angle env s d n32 n64 cg p = upd_gyro_rate s n32 cg ∧
    _notify_new_delta_velocity env s dv m32 m64 ca = upd_accel_rate s m32 ca ∧
    (upd_gyro_rate s n32 cg).delta_angle_acc = s.delta_angle_acc ∧
    (upd_gyro_rate s n32 cg).delta_angle_acc_dt = s.delta_angle_acc_dt ∧
    (upd_gyro_rate s n32 cg).gyro_last_sample_us = s.gyro_last_sample_us ∧
    (upd_gyro_rate s n32 cg).gyro_filter = s.gyro_filter ∧
    (upd_gyro_rate s n32 cg).notches = s.notches ∧
    (upd_gyro_rate s n32 cg).gyro_filtered = s.gyro_filtered ∧
    (upd_gyro_rate s n32 cg).new_gyro_data = s.new_gyro_data ∧
    (upd_gyro_rate s n32 cg).gyro_error_count = s.gyro_error_count ∧
    (upd_accel_rate s m32 ca).delta_velocity_acc = s.delta_velocity_acc ∧
    (upd_accel_rate s m32 ca).delta_velocity_acc_dt = s.delta_velocity_acc_dt ∧
    (upd_accel_rate s m32 ca).accel_last_sample_us = s.accel_last_sample_us ∧
    (upd_accel_rate s m32 ca).accel_filter = s.accel_filter ∧
    (upd_accel_rate s m32 ca).accel_filtered = s.accel_filtered ∧
    (upd_accel_rate s m32 ca).new_accel_data = s.new_accel_data ∧
    (upd_accel_rate s m32 ca).accel_error_count = s.accel_error_count := by
  refine ⟨?_, ?_, rfl, rfl, rfl, rfl, rfl, rfl, rfl, rfl, rfl, rfl, rfl, rfl, rfl, rfl, rfl⟩
  · unfold _notify_new_delta_angle
    simp [hk, hg]
  · unfold _notify_new_delta_velocity
    simp [hk, ha]

/-- Witness for C7: the zero-initialised state has rate 0 < 40 Hz, so a
delta-angle sample is dropped. -/
theorem claim_C7_witness :
    _notify_new_delta_angle envU st0 ⟨1, 1, 1⟩ 5 6 false 0 = upd_gyro_rate st0 5 false ∧
    _notify_new_delta_velocity envU st0 ⟨1, 1, 1⟩ 5 6 false = upd_accel_rate st0 5 false := by
  have h := claim_C7 envU st0 ⟨1, 1, 1⟩ ⟨1, 1, 1⟩ 5 6 5 6 false false 0 rfl
    (by norm_num [upd_gyro_rate, _update_sensor_rate, st0])
    (by norm_num [upd_accel_rate, _update_sensor_rate, st0])
  exact ⟨h.1, h.2.1⟩

/-- Claim C8: `update_primary` invokes the one-way primary notification, and
records the new state and timestamp, exactly when the computed primary
boolean differs from the last-notified state or the 200 ms heartbeat timeout
has expired; an immediately repeated call produces no further notification. -/
theorem claim_C8 {σg σn σa σp} (env : Env σg σn σa σp) (s : BState σg σn σa σp)
    (now32 p : ℕ) :
    ((update_primary env s now32 p).2 = true ↔
      ((env.gyro_inst == p) ≠ s.is_primary ∨
        timeout_expired s.last_primary_update_us now32 200000 = true)) ∧
    ((update_primary env s now32 p).2 = true →
      (update_primary env s now32 p).1 =
        { s with is_primary := (env.gyro_inst == p), last_primary_update_us := now32 }) ∧
    ((update_primary env s now32 p).2 = false → (update_primary env s now32 p).1 = s) ∧
    (update_primary env (update_primary env s now32 p).1 now32 p).2 = false := by
  unfold update_primary
  dsimp only
  split
  · rename_i h
    refine ⟨by simp [h], fun _ => rfl, by simp, ?_⟩
    dsimp only
    rw [if_neg]
    simp [timeout_expired, u32sub_self]
  · rename_i h
    refine ⟨by simpa using h, by simp, fun _ => rfl, ?_⟩
    dsimp only

/-! Projection lemmas: field-level consequences of the shape lemmas, used to
push state reads through the pipeline steps. -/

theorem V3.add_def (a b : V3) : a + b = ⟨a.x + b.x, a.y + b.y, a.z + b.z⟩ := rfl

theorem V3.hmul_def (a : V3) (q : ℚ) : a * q = ⟨a.x * q, a.y * q, a.z * q⟩ := rfl

theorem V3.zero_add (v : V3) : V3.zero + v = v := by
  rw [V3.add_def]
  simp [V3.zero]

theorem V3.add_zero (v : V3) : v + V3.zero = v := by
  rw [V3.add_def]
  simp [V3.zero]

theorem V3.mul_zero (v : V3) : v * (0 : ℚ) = V3.zero := by
  rw [V3.hmul_def]
  simp [V3.zero]

@[simp] theorem upd_gyro_rate_proj {σg σn σa σp} (s : BState σg σn σa σp)
    (now : ℕ) (c : Bool) :
    (upd_gyro_rate s now c).gyro_last_sample_us = s.gyro_last_sample_us ∧
    (upd_gyro_rate s now c).delta_angle_acc = s.delta_angle_acc ∧
    (upd_gyro_rate s now c).delta_angle_acc_dt = s.delta_angle_acc_dt ∧
    (upd_gyro_rate s now c).last_delta_angle = s.last_delta_angle ∧
    (upd_gyro_rate s now c).last_raw_gyro = s.last_raw_gyro ∧
    (upd_gyro_rate s now c).gyro_filter = s.gyro_filter ∧
    (upd_gyro_rate s now c).notches = s.notches ∧
    (upd_gyro_rate s now c).gyro_filtered = s.gyro_filtered ∧
    (upd_gyro_rate s now c).new_gyro_data = s.new_gyro_data ∧
    (upd_gyro_rate s now c).gyro_pub = s.gyro_pub ∧
    (upd_gyro_rate s now c).killed = s.killed ∧
    (upd_gyro_rate s now c).gyro_error_count = s.gyro_error_count ∧
    (upd_gyro_rate s now c).delta_velocity_acc = s.delta_velocity_acc ∧
    (upd_gyro_rate s now c).delta_velocity_acc_dt = s.delta_velocity_acc_dt ∧
    (upd_gyro_rate s now c).accel_filtered = s.accel_filtered ∧
    (upd_gyro_rate s now c).accel_pub = s.accel_pub ∧
    (upd_gyro_rate s now c).new_accel_data = s.new_accel_data ∧
    (upd_gyro_rate s now c).accel_last_sample_us = s.accel_last_sample_us ∧
    (upd_gyro_rate s now c).is_primary = s.is_primary ∧
    (upd_gyro_rate s now c).last_primary_update_us = s.last_primary_update_us := by
  refine ⟨rfl, rfl, rfl, rfl, rfl, rfl, rfl, rfl, rfl, rfl, rfl, rfl, rfl, rfl, rfl, rfl,
    rfl, rfl, rfl, rfl⟩

@[simp] theorem upd_accel_rate_proj {σg σn σa σp} (s : BState σg σn σa σp)
    (now : ℕ) (c : Bool) :
    (upd_accel_rate s now c).accel_last_sample_us = s.accel_last_sample_us ∧
    (upd_accel_rate s now c).delta_velocity_acc = s.delta_velocity_acc ∧
    (upd_accel_rate s now c).delta_velocity_acc_dt = s.delta_velocity_acc_dt ∧
    (upd_accel_rate s now c).accel_filter = s.accel_filter ∧
    (upd_accel_rate s now c).accel_filtered = s.accel_filtered ∧
    (upd_accel_rate s now c).new_accel_data = s.new_accel_data ∧
    (upd_accel_rate s now c).accel_pub = s.accel_pub ∧
    (upd_accel_rate s now c).killed = s.killed ∧
    (upd_accel_rate s now c).accel_error_count = s.accel_error_count ∧
    (upd_accel_rate s now c).gyro_filtered = s.gyro_filtered ∧
    (upd_accel_rate s now c).gyro_pub = s.gyro_pub ∧
    (upd_accel_rate s now c).delta_angle_acc = s.delta_angle_acc ∧
    (upd_accel_rate s now c).delta_angle_acc_dt = s.delta_angle_acc_dt ∧
    (upd_accel_rate s now c).gyro_last_sample_us = s.gyro_last_sample_us := by
  refine ⟨rfl, rfl, rfl, rfl, rfl, rfl, rfl, rfl, rfl, rfl, rfl, rfl, rfl, rfl⟩

@[simp] theorem apply_gyro_filters_proj {σg σn σa σp} (env : Env σg σn σa σp)
    (s : BState σg σn σa σp) (g : V3) (p : ℕ) :
    (apply_gyro_filters env s g p).delta_angle_acc = s.delta_angle_acc ∧
    (apply_gyro_filters env s g p).delta_angle_acc_dt = s.delta_angle_acc_dt ∧
    (apply_gyro_filters env s g p).last_delta_angle = s.last_delta_angle ∧
    (apply_gyro_filters env s g p).last_raw_gyro = s.last_raw_gyro ∧
    (apply_gyro_filters env s g p).gyro_last_sample_us = s.gyro_last_sample_us ∧
    (apply_gyro_filters env s g p).new_gyro_data = s.new_gyro_data ∧
    (apply_gyro_filters env s g p).gyro_pub = s.gyro_pub ∧
    (apply_gyro_filters env s g p).killed = s.killed ∧
    (apply_gyro_filters env s g p).gyro_error_count = s.gyro_error_count ∧
    (apply_gyro_filters env s g p).delta_velocity_acc = s.delta_velocity_acc ∧
    (apply_gyro_filters env s g p).delta_velocity_acc_dt = s.delta_velocity_acc_dt ∧
    (apply_gyro_filters env s g p).accel_filtered = s.accel_filtered ∧
    (apply_gyro_filters env s g p).accel_pub = s.accel_pub ∧
    (apply_gyro_filters env s g p).new_accel_data = s.new_accel_data ∧
    (apply_gyro_filters env s g p).accel_last_sample_us = s.accel_last_sample_us ∧
    (apply_gyro_filters env s g p).is_primary = s.is_primary ∧
    (apply_gyro_filters env s g p).last_primary_update_us = s.last_primary_update_us := by
  obtain ⟨gf, pf, nl, gw, lf, v, h⟩ := apply_gyro_filters_shape env s g p
  rw [h]
  refine ⟨rfl, rfl, rfl, rfl, rfl, rfl, rfl, rfl, rfl, rfl, rfl, rfl, rfl, rfl, rfl, rfl, rfl⟩

@[simp] theorem update_primary_fst_proj {σg σn σa σp} (env : Env σg σn σa σp)
    (s : BState σg σn σa σp) (now32 p : ℕ) :
    (update_primary env s now32 p).1.delta_angle_acc = s.delta_angle_acc ∧
    (update_primary env s now32 p).1.delta_angle_acc_dt = s.delta_angle_acc_dt ∧
    (update_primary env s now32 p).1.last_delta_angle = s.last_delta_angle ∧
    (update_primary env s now32 p).1.last_raw_gyro = s.last_raw_gyro ∧
    (update_primary env s now32 p).1.gyro_last_sample_us = s.gyro_last_sample_us ∧
    (update_primary env s now32 p).1.new_gyro_data = s.new_gyro_data ∧
    (update_primary env s now32 p).1.gyro_filtered = s.gyro_filtered ∧
    (update_primary env s now32 p).1.gyro_pub = s.gyro_pub ∧
    (update_primary env s now32 p).1.killed = s.killed ∧
    (update_primary env s now32 p).1.gyro_error_count = s.gyro_error_count ∧
    (update_primary env s now32 p).1.delta_velocity_acc = s.delta_velocity_acc ∧
    (update_primary env s now32 p).1.delta_velocity_acc_dt = s.delta_velocity_acc_dt ∧
    (update_primary env s now32 p).1.accel_filtered = s.accel_filtered ∧
    (update_primary env s now32 p).1.accel_pub = s.accel_pub ∧
    (update_primary env s now32 p).1.new_accel_data = s.new_accel_data ∧
    (update_primary env s now32 p).1.accel_last_sample_us = s.accel_last_sample_us := by
  obtain ⟨b, t, h⟩ := update_primary_shape env s now32 p
  rw [h]
  refine ⟨rfl, rfl, rfl, rfl, rfl, rfl, rfl, rfl, rfl, rfl, rfl, rfl, rfl, rfl, rfl, rfl⟩

@[simp] theorem update_gyro_filters_proj {σg σn σa σp} (env : Env σg σn σa σp)
    (s : BState σg σn σa σp) (c : Bool) :
    (update_gyro_filters env s c).delta_angle_acc = s.delta_angle_acc ∧
    (update_gyro_filters env s c).delta_angle_acc_dt = s.delta_angle_acc_dt ∧
    (update_gyro_filters env s c).gyro_filtered = s.gyro_filtered ∧
    (update_gyro_filters env s c).gyro_pub = s.gyro_pub ∧
    (update_gyro_filters env s c).new_gyro_data = s.new_gyro_data ∧
    (update_gyro_filters env s c).killed = s.killed ∧
    (update_gyro_filters env s c).delta_velocity_acc = s.delta_velocity_acc ∧
    (update_gyro_filters env s c).delta_velocity_acc_dt = s.delta_velocity_acc_dt ∧
    (update_gyro_filters env s c).accel_filtered = s.accel_filtered ∧
    (update_gyro_filters env s c).accel_pub = s.accel_pub ∧
    (update_gyro_filters env s c).new_accel_data = s.new_accel_data ∧
    (update_gyro_filters env s c).delta_angle_pub = s.delta_angle_pub ∧
    (update_gyro_filters env s c).delta_angle_dt_pub = s.delta_angle_dt_pub := by
  obtain ⟨gf, pf, hz, nl, h⟩ := update_gyro_filters_shape env s c
  rw [h]
  refine ⟨rfl, rfl, rfl, rfl, rfl, rfl, rfl, rfl, rfl, rfl, rfl, rfl, rfl⟩

@[simp] theorem update_accel_filters_proj {σg σn σa σp} (env : Env σg σn σa σp)
    (s : BState σg σn σa σp) :
    (update_accel_filters env s).delta_velocity_acc = s.delta_velocity_acc ∧
    (update_accel_filters env s).delta_velocity_acc_dt = s.delta_velocity_acc_dt ∧
    (update_accel_filters env s).accel_filtered = s.accel_filtered ∧
    (update_accel_filters env s).accel_pub = s.accel_pub ∧
    (update_accel_filters env s).new_accel_data = s.new_accel_data ∧
    (update_accel_filters env s).killed = s.killed ∧
    (update_accel_filters env s).gyro_filtered = s.gyro_filtered ∧
    (update_accel_filters env s).gyro_pub = s.gyro_pub ∧
    (update_accel_filters env s).delta_angle_acc = s.delta_angle_acc ∧
    (update_accel_filters env s).delta_angle_acc_dt = s.delta_angle_acc_dt ∧
    (update_accel_filters env s).delta_velocity_pub = s.delta_velocity_pub ∧
    (update_accel_filters env s).delta_velocity_dt_pub = s.delta_velocity_dt_pub := by
  obtain ⟨af, hz, h⟩ := update_accel_filters_shape env s
  rw [h]
  refine ⟨rfl, rfl, rfl, rfl, rfl, rfl, rfl, rfl, rfl, rfl, rfl, rfl⟩

/-- Field-level description of the locked gyro accumulate block: the
staleness reset, the accumulated amount (trapezoid/direct delta plus the
pre-computed coning term), the caches, and the frame on unrelated fields. -/
@[simp] theorem gyro_accum_proj {σg σn σa σp} (env : Env σg σn σa σp)
    (s : BState σg σn σa σp) (g d0 : V3) (dt0 : ℚ) (last n32 n64 p : ℕ) :
    (gyro_accum env s g d0 dt0 last n32 n64 p).delta_angle_acc =
      (if 100000 < u64sub n64 last then V3.zero else s.delta_angle_acc) +
        (if 100000 < u64sub n64 last then V3.zero else d0) +
        ((s.delta_angle_acc + s.last_delta_angle * ((1 : ℚ)/6)).cross d0) * ((1 : ℚ)/2) ∧
    (gyro_accum env s g d0 dt0 last n32 n64 p).delta_angle_acc_dt =
      (if 100000 < u64sub n64 last then (0 : ℚ) else s.delta_angle_acc_dt) +
        (if 100000 < u64sub n64 last then (0 : ℚ) else dt0) ∧
    (gyro_accum env s g d0 dt0 last n32 n64 p).last_delta_angle =
      (if 100000 < u64sub n64 last then V3.zero else d0) ∧
    (gyro_accum env s g d0 dt0 last n32 n64 p).last_raw_gyro = g ∧
    (gyro_accum env s g d0 dt0 last n32 n64 p).new_gyro_data = true ∧
    (gyro_accum env s g d0 dt0 last n32 n64 p).killed = s.killed ∧
    (gyro_accum env s g d0 dt0 last n32 n64 p).gyro_last_sample_us = s.gyro_last_sample_us ∧
    (gyro_accum env s g d0 dt0 last n32 n64 p).gyro_pub = s.gyro_pub ∧
    (gyro_accum env s g d0 dt0 last n32 n64 p).gyro_error_count = s.gyro_error_count ∧
    (gyro_accum env s g d0 dt0 last n32 n64 p).delta_velocity_acc = s.delta_velocity_acc ∧
    (gyro_accum env s g d0 dt0 last n32 n64 p).delta_velocity_acc_dt = s.delta_velocity_acc_dt ∧
    (gyro_accum env s g d0 dt0 last n32 n64 p).accel_filtered = s.accel_filtered ∧
    (gyro_accum env s g d0 dt0 last n32 n64 p).accel_pub = s.accel_pub ∧
    (gyro_accum env s g d0 dt0 last n32 n64 p).new_accel_data = s.new_accel_data ∧
    (gyro_accum env s g d0 dt0 last n32 n64 p).accel_last_sample_us = s.accel_last_sample_us := by
  by_cases hst : 100000 < u64sub n64 last
  · simp only [gyro_accum, if_pos hst]
    simp [hst]
  · simp only [gyro_accum, if_neg hst]
    simp [hst]

/-- Field-level description of the locked delta-velocity accumulate block:
staleness reset, `accel * dt` accumulation, the stored filtered value (the
raw filter output, even when non-finite), and the frame. -/
@[simp] theorem accel_accum_proj {σg σn σa σp} (env : Env σg σn σa σp)
    (s : BState σg σn σa σp) (a : V3) (dt0 : ℚ) (last n64 : ℕ) :
    (accel_accum env s a dt0 last n64).delta_velocity_acc =
      (if 100000 < u64sub n64 last then V3.zero else s.delta_velocity_acc) +
        a * (if 100000 < u64sub n64 last then (0 : ℚ) else dt0) ∧
    (accel_accum env s a dt0 last n64).delta_velocity_acc_dt =
      (if 100000 < u64sub n64 last then (0 : ℚ) else s.delta_velocity_acc_dt) +
        (if 100000 < u64sub n64 last then (0 : ℚ) else dt0) ∧
    (accel_accum env s a dt0 last n64).accel_filtered =
      (env.accelLPF.apply s.accel_filter a).2 ∧
    (accel_accum env s a dt0 last n64).accel_filter =
      (if env.isBad (env.accelLPF.apply s.accel_filter a).2
        then env.accelLPF.reset (env.accelLPF.apply s.accel_filter a).1
        else (env.accelLPF.apply s.accel_filter a).1) ∧
    (accel_accum env s a dt0 last n64).new_accel_data = true ∧
    (accel_accum env s a dt0 last n64).killed = s.killed ∧
    (accel_accum env s a dt0 last n64).accel_last_sample_us = s.accel_last_sample_us ∧
    (accel_accum env s a dt0 last n64).accel_pub = s.accel_pub ∧
    (accel_accum env s a dt0 last n64).accel_error_count = s.accel_error_count ∧
    (accel_accum env s a dt0 last n64).gyro_filtered = s.gyro_filtered ∧
    (accel_accum env s a dt0 last n64).gyro_pub = s.gyro_pub ∧
    (accel_accum env s a dt0 last n64).delta_angle_acc = s.delta_angle_acc ∧
    (accel_accum env s a dt0 last n64).delta_angle_acc_dt = s.delta_angle_acc_dt ∧
    (accel_accum env s a dt0 last n64).gyro_last_sample_us = s.gyro_last_sample_us := by
  by_cases hst : 100000 < u64sub n64 last
  · by_cases hbad : env.isBad (env.accelLPF.apply s.accel_filter a).2
    · simp only [accel_accum, if_pos hst]
      simp [hst, hbad]
    · simp only [accel_accum, if_pos hst]
      simp [hst, hbad]
  · by_cases hbad : env.isBad (env.accelLPF.apply s.accel_filter a).2
    · simp only [accel_accum, if_neg hst]
      simp [hst, hbad]
    · simp only [accel_accum, if_neg hst]
      simp [hst, hbad]

/-- Reduction of the raw gyro notification (non-killed, not dropped) to the
shared accumulate block, with the code's dt selection. -/
theorem notify_gyro_raw_reduce {σg σn σa σp} (env : Env σg σn σa σp)
    (s : BState σg σn σa σp) (g : V3) (su n32 n64 : ℕ) (c : Bool) (p : ℕ)
    (hk : s.killed = false) (hnd : ¬ gyroDropped (upd_gyro_rate s n32 c) su) :
    _notify_new_gyro_raw_sample env s g su n32 n64 c p =
      gyro_accum env
        { upd_gyro_rate s n32 c with gyro_last_sample_us :=
            (if su ≠ 0 ∧ s.gyro_last_sample_us ≠ 0 then su else n64) }
        g ((g + s.last_raw_gyro) * ((1 : ℚ)/2) * gyro_dt_choice (upd_gyro_rate s n32 c) su)
        (gyro_dt_choice (upd_gyro_rate s n32 c) su)
        s.gyro_last_sample_us n32 n64 p := by
  by_cases hts : su ≠ 0 ∧ s.gyro_last_sample_us ≠ 0
  · unfold _notify_new_gyro_raw_sample gyro_dt_choice
    simp [hk, hts]
  · have hr : ¬ ((upd_gyro_rate s n32 c).gyro_raw_sample_rate < 40) :=
      fun h => hnd ⟨hts, h⟩
    unfold _notify_new_gyro_raw_sample gyro_dt_choice
    simp [hk, hts, hr]

/-- Reduction of the raw accel notification (non-killed, not dropped) to the
shared accumulate block, with the code's dt selection. -/
theorem notify_accel_raw_reduce {σg σn σa σp} (env : Env σg σn σa σp)
    (s : BState σg σn σa σp) (a : V3) (su n32 n64 : ℕ) (c f : Bool)
    (hk : s.killed = false)
    (hnd : (su ≠ 0 ∧ s.accel_last_sample_us ≠ 0) ∨
      ¬ ((upd_accel_rate s n32 c).accel_raw_sample_rate < 40)) :
    _notify_new_accel_raw_sample env s a su n32 n64 c f =
      accel_accum env
        { upd_accel_rate s n32 c with accel_last_sample_us :=
            (if su ≠ 0 ∧ s.accel_last_sample_us ≠ 0 then su else n64) }
        a (accel_dt_choice (upd_accel_rate s n32 c) su)
        s.accel_last_sample_us n64 := by
  by_cases hts : su ≠ 0 ∧ s.accel_last_sample_us ≠ 0
  · unfold _notify_new_accel_raw_sample accel_dt_choice
    simp [hk, hts]
  · have hr : ¬ ((upd_accel_rate s n32 c).accel_raw_sample_rate < 40) := by
      rcases hnd with h | h
      · exact absurd h hts
      · exact h
    unfold _notify_new_accel_raw_sample accel_dt_choice
    simp [hk, hts, hr]

/-- Claim C1 counterexample: on a 200 ms gap (FIFO path, rate 400 Hz), the
new sample's own dt is 1/400 s, but the accumulated `delta_time_acc` after
the call is 0, not the sample's own dt as the claim states. -/
theorem claim_C1_counterexample :
    gyro_dt_choice (upd_gyro_rate stRun 5 false) 0 = 1/400 ∧
    (_notify_new_gyro_raw_sample envU stRun ⟨1, 0, 0⟩ 0 5 1200000 false 0).delta_angle_acc_dt = 0 ∧
    (_notify_new_gyro_raw_sample envU stRun ⟨1, 0, 0⟩ 0 5 1200000 false 0).delta_angle_acc_dt ≠
      gyro_dt_choice (upd_gyro_rate stRun 5 false) 0 := by
  have h1 : gyro_dt_choice (upd_gyro_rate stRun 5 false) 0 = 1/400 := by
    norm_num [gyro_dt_choice, upd_gyro_rate, _update_sensor_rate, stRun, st0]
  have h2 : (_notify_new_gyro_raw_sample envU stRun ⟨1, 0, 0⟩ 0 5 1200000 false 0).delta_angle_acc_dt = 0 := by
    simp only [_notify_new_gyro_raw_sample, upd_gyro_rate, _update_sensor_rate, gyro_accum,
      apply_gyro_filters, gyro_filter_pass, run_notches, save_gyro_window, update_primary,
      timeout_expired, u64sub, u32sub, envU, st0, stRun, trivF]
    norm_num
  exact ⟨h1, h2, by rw [h2, h1]; norm_num⟩

/-- Claim C1, amended: after a gap of more than 100 ms, the delta accumulator
and its dt are zeroed before accumulation, but the current sample's
contribution is also suppressed — its trapezoid delta and dt are zeroed — so
`delta_time_acc` afterwards equals 0 (not the sample's own dt); the only
residual accumulation on the gyro side is the coning term computed from the
pre-reset accumulator (exactly zero on the accel side), and the sample still
updates the last-raw / last-delta caches and raises the new-data flag. -/
theorem claim_C1_amended {σg σn σa σp} (env : Env σg σn σa σp) (s : BState σg σn σa σp)
    (g a : V3) (su sua n32 m32 n64 m64 : ℕ) (c ca f : Bool) (p : ℕ)
    (hk : s.killed = false)
    (hnd : ¬ gyroDropped (upd_gyro_rate s n32 c) su)
    (hst : 100000 < u64sub n64 s.gyro_last_sample_us)
    (hand : (sua ≠ 0 ∧ s.accel_last_sample_us ≠ 0) ∨
      ¬ ((upd_accel_rate s m32 ca).accel_raw_sample_rate < 40))
    (hast : 100000 < u64sub m64 s.accel_last_sample_us) :
    (_notify_new_gyro_raw_sample env s g su n32 n64 c p).delta_angle_acc_dt = 0 ∧
    (_notify_new_gyro_raw_sample env s g su n32 n64 c p).delta_angle_acc =
      ((s.delta_angle_acc + s.last_delta_angle * ((1 : ℚ)/6)).cross
        ((g + s.last_raw_gyro) * ((1 : ℚ)/2) * gyro_dt_choice (upd_gyro_rate s n32 c) su)) *
        ((1 : ℚ)/2) ∧
    (_notify_new_gyro_raw_sample env s g su n32 n64 c p).last_delta_angle = V3.zero ∧
    (_notify_new_gyro_raw_sample env s g su n32 n64 c p).last_raw_gyro = g ∧
    (_notify_new_gyro_raw_sample env s g su n32 n64 c p).new_gyro_data = true ∧
    (_notify_new_accel_raw_sample env s a sua m32 m64 ca f).delta_velocity_acc_dt = 0 ∧
    (_notify_new_accel_raw_sample env s a sua m32 m64 ca f).delta_velocity_acc = V3.zero ∧
    (_notify_new_accel_raw_sample env s a sua m32 m64 ca f).new_accel_data = true := by
  rw [notify_gyro_raw_reduce env s g su n32 n64 c p hk hnd,
      notify_accel_raw_reduce env s a sua m32 m64 ca f hk hand]
  simp [hst, hast, V3.zero_add, V3.mul_zero]

/-- Witness for the amended C1 at a concrete stale input. -/
theorem claim_C1_amended_witness :
    (_notify_new_gyro_raw_sample envU stRun ⟨1, 0, 0⟩ 0 5 1200000 false 0).delta_angle_acc_dt = 0 ∧
    (_notify_new_accel_raw_sample envU stRun ⟨1, 2, 3⟩ 0 5 1200000 false false).delta_velocity_acc_dt = 0 ∧
    (_notify_new_accel_raw_sample envU stRun ⟨1, 2, 3⟩ 0 5 1200000 false false).delta_velocity_acc = V3.zero := by
  have h := claim_C1_amended envU stRun ⟨1, 0, 0⟩ ⟨1, 2, 3⟩ 0 0 5 5 1200000 1200000
    false false false 0 rfl
    (by norm_num [gyroDropped, upd_gyro_rate, _update_sensor_rate, stRun, st0])
    (by norm_num [stRun, st0, u64sub])
    (Or.inr (by norm_num [upd_accel_rate, _update_sensor_rate, stRun, st0]))
    (by norm_num [stRun, st0, u64sub])
  exact ⟨h.1, h.2.2.2.2.2.1, h.2.2.2.2.2.2.1⟩

/-- Claim C3: with no staleness reset, the amount added to the delta-angle
accumulator by a raw gyro sample is the trapezoidal delta
`(current + previous_raw) * 0.5 * dt` plus the coning term
`0.5 * ((accumulated + previous_delta/6) × current_delta)`, while the accel
path adds only `value * dt` with no trapezoid and no coning. -/
theorem claim_C3 {σg σn σa σp} (env : Env σg σn σa σp) (s : BState σg σn σa σp)
    (g a : V3) (su sua n32 m32 n64 m64 : ℕ) (c ca f : Bool) (p : ℕ)
    (hk : s.killed = false)
    (hnd : ¬ gyroDropped (upd_gyro_rate s n32 c) su)
    (hfr : ¬ (100000 < u64sub n64 s.gyro_last_sample_us))
    (hand : (sua ≠ 0 ∧ s.accel_last_sample_us ≠ 0) ∨
      ¬ ((upd_accel_rate s m32 ca).accel_raw_sample_rate < 40))
    (hafr : ¬ (100000 < u64sub m64 s.accel_last_sample_us)) :
    (_notify_new_gyro_raw_sample env s g su n32 n64 c p).delta_angle_acc =
      s.delta_angle_acc +
        (g + s.last_raw_gyro) * ((1 : ℚ)/2) * gyro_dt_choice (upd_gyro_rate s n32 c) su +
        ((s.delta_angle_acc + s.last_delta_angle * ((1 : ℚ)/6)).cross
          ((g + s.last_raw_gyro) * ((1 : ℚ)/2) * gyro_dt_choice (upd_gyro_rate s n32 c) su)) *
          ((1 : ℚ)/2) ∧
    (_notify_new_gyro_raw_sample env s g su n32 n64 c p).delta_angle_acc_dt =
      s.delta_angle_acc_dt + gyro_dt_choice (upd_gyro_rate s n32 c) su ∧
    (_notify_new_accel_raw_sample env s a sua m32 m64 ca f).delta_velocity_acc =
      s.delta_velocity_acc + a * accel_dt_choice (upd_accel_rate s m32 ca) sua ∧
    (_notify_new_accel_raw_sample env s a sua m32 m64 ca f).delta_velocity_acc_dt =
      s.delta_velocity_acc_dt + accel_dt_choice (upd_accel_rate s m32 ca) sua := by
  rw [notify_gyro_raw_reduce env s g su n32 n64 c p hk hnd,
      notify_accel_raw_reduce env s a sua m32 m64 ca f hk hand]
  simp [hfr, hafr]

/-- Witness for C3 at a concrete fresh (non-stale) input, with the
accumulated values computed out. -/
theorem claim_C3_witness :
    (_notify_new_gyro_raw_sample envU stRun ⟨1, 0, 0⟩ 0 5 1050000 false 0).delta_angle_acc_dt = 13/400 ∧
    (_notify_new_gyro_raw_sample envU stRun ⟨1, 0, 0⟩ 0 5 1050000 false 0).delta_angle_acc =
      ⟨801/400, 1/800, 1/960⟩ ∧
    (_notify_new_accel_raw_sample envU stRun ⟨1, 2, 3⟩ 0 5 1050000 false false).delta_velocity_acc_dt = 13/400 ∧
    (_notify_new_accel_raw_sample envU stRun ⟨1, 2, 3⟩ 0 5 1050000 false false).delta_velocity_acc =
      ⟨401/400, 201/200, 403/400⟩ := by
  have h := claim_C3 envU stRun ⟨1, 0, 0⟩ ⟨1, 2, 3⟩ 0 0 5 5 1050000 1050000
    false false false 0 rfl
    (by norm_num [gyroDropped, upd_gyro_rate, _update_sensor_rate, stRun, st0])
    (by norm_num [stRun, st0, u64sub])
    (Or.inr (by norm_num [upd_accel_rate, _update_sensor_rate, stRun, st0]))
    (by norm_num [stRun, st0, u64sub])
  refine ⟨?_, ?_, ?_, ?_⟩
  · rw [h.2.1]
    norm_num [stRun, st0, gyro_dt_choice, upd_gyro_rate, _update_sensor_rate]
  · rw [h.1]
    norm_num [stRun, st0, gyro_dt_choice, upd_gyro_rate, _update_sensor_rate,
      V3.cross, V3.add_def, V3.hmul_def, V3.mk.injEq]
  · rw [h.2.2.2]
    norm_num [stRun, st0, accel_dt_choice, upd_accel_rate, _update_sensor_rate]
  · rw [h.2.2.1]
    norm_num [stRun, st0, accel_dt_choice, upd_accel_rate, _update_sensor_rate,
      V3.add_def, V3.hmul_def, V3.mk.injEq]

/-- The stored filtered gyro value after `apply_gyro_filters`: the pipeline
output when finite, the previous stored value when not. -/
theorem apply_gyro_filters_filtered {σg σn σa σp} (env : Env σg σn σa σp)
    (s : BState σg σn σa σp) (g : V3) (p : ℕ) :
    (apply_gyro_filters env s g p).gyro_filtered =
      (if env.isBad (gyro_filter_pass env s g p).2 then s.gyro_filtered
        else (gyro_filter_pass env s g p).2) := by
  obtain ⟨gf, pf, nl, gw, lf, h⟩ := gyro_filter_pass_shape env s g p
  unfold apply_gyro_filters
  dsimp only
  split
  · rw [h]
  · rfl

/-- If the stored filtered gyro value is finite, it remains finite across the
locked gyro accumulate block. -/
theorem gyro_accum_filtered_good {σg σn σa σp} (env : Env σg σn σa σp)
    (s : BState σg σn σa σp) (g d0 : V3) (dt0 : ℚ) (last n32 n64 p : ℕ)
    (h : env.isBad s.gyro_filtered = false) :
    env.isBad (gyro_accum env s g d0 dt0 last n32 n64 p).gyro_filtered = false := by
  unfold gyro_accum
  dsimp only
  by_cases hst : 100000 < u64sub n64 last
  · simp only [if_pos hst]
    simp only [update_primary_fst_proj]
    rw [apply_gyro_filters_filtered]
    split
    · simpa using h
    · rename_i hgood
      simpa using hgood
  · simp only [if_neg hst]
    simp only [update_primary_fst_proj]
    rw [apply_gyro_filters_filtered]
    split
    · simpa using h
    · rename_i hgood
      simpa using hgood

/-- Across every operation of the core, a finite stored filtered gyro value
and a finite published gyro value stay finite. -/
theorem applyOp_filtered_good {σg σn σa σp} (env : Env σg σn σa σp) (op : Op)
    (t : BState σg σn σa σp)
    (h1 : env.isBad t.gyro_filtered = false) (h2 : env.isBad t.gyro_pub = false) :
    env.isBad (applyOp env op t).gyro_filtered = false ∧
    env.isBad (applyOp env op t).gyro_pub = false := by
  cases op with
  | gyroRaw g su n32 n64 c p =>
    unfold applyOp _notify_new_gyro_raw_sample
    dsimp only
    split
    · exact ⟨h1, h2⟩
    · split
      · exact ⟨gyro_accum_filtered_good env _ g _ _ _ n32 n64 p (by simp [h1]), by simp [h2]⟩
      · split
        · exact ⟨by simp [h1], by simp [h2]⟩
        · exact ⟨gyro_accum_filtered_good env _ g _ _ _ n32 n64 p (by simp [h1]), by simp [h2]⟩
  | deltaAngle d n32 n64 c p =>
    unfold applyOp _notify_new_delta_angle
    dsimp only
    split
    · exact ⟨h1, h2⟩
    · split
      · exact ⟨by simp [h1], by simp [h2]⟩
      · exact ⟨gyro_accum_filtered_good env _ _ _ _ _ n32 n64 p (by simp [h1]), by simp [h2]⟩
  | accelRaw a su n32 n64 c f =>
    unfold applyOp _notify_new_accel_raw_sample
    dsimp only
    split
    · exact ⟨h1, h2⟩
    · split
      · exact ⟨by simp [h1], by simp [h2]⟩
      · split
        · exact ⟨by simp [h1], by simp [h2]⟩
        · exact ⟨by simp [h1], by simp [h2]⟩
  | deltaVel d n32 n64 c =>
    unfold applyOp _notify_new_delta_velocity
    dsimp only
    split
    · exact ⟨h1, h2⟩
    · split
      · exact ⟨by simp [h1], by simp [h2]⟩
      · exact ⟨by simp [h1], by simp [h2]⟩
  | updGyro c =>
    unfold applyOp update_gyro
    dsimp only
    split
    · exact ⟨h1, h2⟩
    · rename_i hkill
      split
      · exact ⟨by simp [_publish_gyro, hkill, h1], by simp [_publish_gyro, hkill, h1]⟩
      · exact ⟨by simp [h1], by simp [h2]⟩
  | updAccel =>
    unfold applyOp update_accel
    dsimp only
    split
    · exact ⟨h1, h2⟩
    · rename_i hkill
      split
      · exact ⟨by simp [_publish_accel, hkill, h1], by simp [_publish_accel, hkill, h2]⟩
      · exact ⟨by simp [h1], by simp [h2]⟩
  | gyroFifoReset =>
    exact ⟨by simp [applyOp, notify_gyro_fifo_reset, h1],
           by simp [applyOp, notify_gyro_fifo_reset, h2]⟩
  | accelFifoReset =>
    exact ⟨by simp [applyOp, notify_accel_fifo_reset, h1],
           by simp [applyOp, notify_accel_fifo_reset, h2]⟩
  | updPrimary n32 p =>
    exact ⟨by simp [applyOp, h1], by simp [applyOp, h2]⟩

/-- Claim C2 counterexample: the accel path does not fall back to the
previous cycle's filtered value — with an accel low-pass filter producing the
non-finite marker, the marker is stored as the filtered reading (the previous
value `⟨7,7,7⟩` is lost) and reaches the published reading on the next
`update_accel`. -/
theorem claim_C2_counterexample :
    (_notify_new_accel_raw_sample envBad stRun ⟨1, 2, 3⟩ 0 5 1050000 false false).accel_filtered =
      ⟨1000, 0, 0⟩ ∧
    stRun.accel_filtered = ⟨7, 7, 7⟩ ∧
    (⟨1000, 0, 0⟩ : V3) ≠ ⟨7, 7, 7⟩ ∧
    envBad.isBad ⟨1000, 0, 0⟩ = true ∧
    (update_accel envBad
      (_notify_new_accel_raw_sample envBad stRun ⟨1, 2, 3⟩ 0 5 1050000 false false)).accel_pub =
      ⟨1000, 0, 0⟩ := by
  refine ⟨?_, rfl, by simp, by norm_num [envBad, envU], ?_⟩
  · simp only [_notify_new_accel_raw_sample, upd_accel_rate, _update_sensor_rate, accel_accum,
      u64sub, u32sub, envBad, envU, stRun, st0, trivF]
    norm_num
  · simp only [_notify_new_accel_raw_sample, upd_accel_rate, _update_sensor_rate, accel_accum,
      update_accel, update_accel_filters, _publish_accel,
      u64sub, u32sub, envBad, envU, stRun, st0, trivF]
    norm_num

/-- Claim C2, amended: for gyro samples the claim holds — a non-finite
low-pass output causes every gyro filter stage (low-pass, FFT tap, all
notches) to be reset and the previous cycle's filtered value to be kept, and
a finite stored/published gyro value stays finite across every operation of
the core; for accel samples, however, only the accel low-pass filter state is
reset, and the (possibly non-finite) filter output is still stored as the
filtered accel reading. -/
theorem claim_C2_amended {σg σn σa σp} (env : Env σg σn σa σp) (s : BState σg σn σa σp)
    (g a : V3) (su n32 n64 : ℕ) (c f : Bool) (p : ℕ) :
    (env.isBad (gyro_filter_pass env s g p).2 = true →
      apply_gyro_filters env s g p =
        { (gyro_filter_pass env s g p).1 with
          gyro_filter := env.gyroLPF.reset (gyro_filter_pass env s g p).1.gyro_filter,
          post_filter_gyro_filter :=
            env.postLPF.reset (gyro_filter_pass env s g p).1.post_filter_gyro_filter,
          notches := (gyro_filter_pass env s g p).1.notches.map
            (fun n => { n with state := env.notchF.reset n.state }),
          gyro_filtered := s.gyro_filtered }) ∧
    (∀ (op : Op) (t : BState σg σn σa σp),
      env.isBad t.gyro_filtered = false → env.isBad t.gyro_pub = false →
        env.isBad (applyOp env op t).gyro_filtered = false ∧
        env.isBad (applyOp env op t).gyro_pub = false) ∧
    (s.killed = false →
      ((su ≠ 0 ∧ s.accel_last_sample_us ≠ 0) ∨
        ¬ ((upd_accel_rate s n32 c).accel_raw_sample_rate < 40)) →
      (_notify_new_accel_raw_sample env s a su n32 n64 c f).accel_filtered =
        (env.accelLPF.apply s.accel_filter a).2 ∧
      (env.isBad (env.accelLPF.apply s.accel_filter a).2 = true →
        (_notify_new_accel_raw_sample env s a su n32 n64 c f).accel_filter =
          env.accelLPF.reset (env.accelLPF.apply s.accel_filter a).1)) := by
  refine ⟨fun hbad => ?_, fun op t h1 h2 => applyOp_filtered_good env op t h1 h2,
    fun hk hnd => ?_⟩
  · obtain ⟨gf, pf, nl, gw, lf, h⟩ := gyro_filter_pass_shape env s g p
    unfold apply_gyro_filters
    dsimp only
    rw [if_pos hbad, h]
  · rw [notify_accel_raw_reduce env s a su n32 n64 c f hk hnd]
    refine ⟨by simp, fun hbad => ?_⟩
    simp [hbad]

/-- Witness for the amended C2: a non-finite gyro pipeline output at a
concrete input keeps the previous filtered value; a finite one is preserved
across an operation; the accel conclusions at the counterexample input. -/
theorem claim_C2_amended_witness :
    (apply_gyro_filters envU stRun ⟨1000, 0, 0⟩ 0).gyro_filtered = stRun.gyro_filtered ∧
    (envU.isBad (applyOp envU (.updGyro false) st0).gyro_filtered = false ∧
      envU.isBad (applyOp envU (.updGyro false) st0).gyro_pub = false) ∧
    (_notify_new_accel_raw_sample envBad stRun ⟨1, 2, 3⟩ 0 5 1050000 false false).accel_filtered =
      (envBad.accelLPF.apply stRun.accel_filter ⟨1, 2, 3⟩).2 := by
  have hpass : envU.isBad (gyro_filter_pass envU stRun ⟨1000, 0, 0⟩ 0).2 = true := by
    norm_num [gyro_filter_pass, run_notches, save_gyro_window, envU, stRun, st0, trivF]
  have hg := (claim_C2_amended envU stRun ⟨1000, 0, 0⟩ ⟨0, 0, 0⟩ 0 0 0 false false 0).1 hpass
  have hi := (claim_C2_amended envU st0 ⟨0, 0, 0⟩ ⟨0, 0, 0⟩ 0 0 0 false false 0).2.1
    (.updGyro false) st0 (by norm_num [envU, st0, V3.zero]) (by norm_num [envU, st0, V3.zero])
  have ha := (claim_C2_amended envBad stRun ⟨0, 0, 0⟩ ⟨1, 2, 3⟩ 0 5 1050000 false false 0).2.2
    rfl (Or.inr (by norm_num [upd_accel_rate, _update_sensor_rate, stRun, st0]))
  refine ⟨?_, hi, ha.1⟩
  rw [hg]

/-- No operation of the core ever writes the killed flag. -/
theorem applyOp_killed {σg σn σa σp} (env : Env σg σn σa σp) (op : Op)
    (t : BState σg σn σa σp) : (applyOp env op t).killed = t.killed := by
  cases op with
  | gyroRaw g su n32 n64 c p =>
    unfold applyOp _notify_new_gyro_raw_sample
    dsimp only
    split
    · rfl
    · split
      · simp
      · split
        · simp
        · simp
  | deltaAngle d n32 n64 c p =>
    unfold applyOp _notify_new_delta_angle
    dsimp only
    split
    · rfl
    · split
      · simp
      · simp
  | accelRaw a su n32 n64 c f =>
    unfold applyOp _notify_new_accel_raw_sample
    dsimp only
    split
    · rfl
    · split
      · simp
      · split
        · simp
        · simp
  | deltaVel d n32 n64 c =>
    unfold applyOp _notify_new_delta_velocity
    dsimp only
    split
    · rfl
    · split
      · simp
      · simp
  | updGyro c =>
    unfold applyOp update_gyro
    dsimp only
    split
    · rfl
    · rename_i hkill
      split
      · simp [_publish_gyro, hkill]
      · simp
  | updAccel =>
    unfold applyOp update_accel
    dsimp only
    split
    · rfl
    · rename_i hkill
      split
      · simp [_publish_accel, hkill]
      · simp
  | gyroFifoReset => simp [applyOp, notify_gyro_fifo_reset]
  | accelFifoReset => simp [applyOp, notify_accel_fifo_reset]
  | updPrimary n32 p => simp [applyOp]

/-- Claim C6: on a killed instance, every sample-ingestion call and every
publish/update call is a no-op (the state is returned unchanged), and no
operation of the core ever changes the killed flag. -/
theorem claim_C6 {σg σn σa σp} (env : Env σg σn σa σp) (s : BState σg σn σa σp)
    (g d a dv pubg puba : V3) (su sua n32 n64 : ℕ) (c f : Bool) (p : ℕ)
    (hk : s.killed = true) :
    _notify_new_gyro_raw_sample env s g su n32 n64 c p = s ∧
    _notify_new_delta_angle env s d n32 n64 c p = s ∧
    _notify_new_accel_raw_sample env s a sua n32 n64 c f = s ∧
    _notify_new_delta_velocity env s dv n32 n64 c = s ∧
    _publish_gyro s pubg = s ∧
    _publish_accel s puba = s ∧
    update_gyro env s c = s ∧
    update_accel env s = s ∧
    (∀ (op : Op) (t : BState σg σn σa σp), (applyOp env op t).killed = t.killed) := by
  refine ⟨?_, ?_, ?_, ?_, ?_, ?_, ?_, ?_, fun op t => applyOp_killed env op t⟩ <;>
    simp [_notify_new_gyro_raw_sample, _notify_new_delta_angle, _notify_new_accel_raw_sample,
      _notify_new_delta_velocity, _publish_gyro, _publish_accel, update_gyro, update_accel, hk]

/-- Witness for C6 at a concrete killed state. -/
theorem claim_C6_witness :
    _notify_new_gyro_raw_sample envU { st0 with killed := true } ⟨1, 2, 3⟩ 0 5 6 false 0 =
      { st0 with killed := true } ∧
    update_gyro envU { st0 with killed := true } false = { st0 with killed := true } := by
  have h := claim_C6 envU { st0 with killed := true } ⟨1, 2, 3⟩ ⟨1, 2, 3⟩ ⟨1, 2, 3⟩
    ⟨1, 2, 3⟩ ⟨1, 2, 3⟩ ⟨1, 2, 3⟩ 0 0 5 6 false false 0 rfl
  exact ⟨h.1, h.2.2.2.2.2.2.1⟩

/-- Sum of an appended dt history. -/
theorem dtsSum_append (l : List ℚ) (x : ℚ) : dtsSum (l ++ [x]) = dtsSum l + x := by
  induction l with
  | nil => simp [dtsSum]
  | cons a l ih =>
    simp only [List.cons_append, dtsSum, List.foldr_cons] at *
    rw [ih]
    ring

/-- Claim C9: in every reachable state, each accumulated dt equals the sum of
the dt values folded into the corresponding delta accumulator since its last
drain (the ghost history clears exactly when the accumulator pair is reset,
and extends exactly when the pair is extended — they always change
together). -/
theorem claim_C9 {σg σn σa σp} (env : Env σg σn σa σp) (s : BState σg σn σa σp)
    (gh : Ghost) (h : Reachable env s gh) :
    s.delta_angle_acc_dt = dtsSum gh.gyroDts ∧
    s.delta_velocity_acc_dt = dtsSum gh.accelDts := by
  induction h with
  | init s h1 h2 => exact ⟨by simp [dtsSum, h1], by simp [dtsSum, h2]⟩
  | step op hr ih =>
    rename_i s gh
    cases op with
    | gyroRaw g su n32 n64 c p =>
      simp only [applyOp, ghostStep]
      by_cases hkill : s.killed = true
      · simp [_notify_new_gyro_raw_sample, hkill, ih.1, ih.2]
      · by_cases hts : su ≠ 0 ∧ s.gyro_last_sample_us ≠ 0
        · have hnd : ¬ gyroDropped (upd_gyro_rate s n32 c) su := fun hd =>
            hd.1 (by simpa using hts)
          rw [notify_gyro_raw_reduce env s g su n32 n64 c p (by simpa using hkill) hnd]
          refine ⟨?_, ?_⟩
          · by_cases hst : 100000 < u64sub n64 s.gyro_last_sample_us
            · simp [hkill, hts, hst, gyroDropped, dtsSum_append, dtsSum, gyro_dt_choice]
            · simp [hkill, hts, hst, gyroDropped, dtsSum_append, gyro_dt_choice, ih.1]
          · simp [hkill, hts, gyroDropped, ih.2]
        · by_cases hlt : (upd_gyro_rate s n32 c).gyro_raw_sample_rate < 40
          · refine ⟨?_, ?_⟩ <;>
              simp [_notify_new_gyro_raw_sample, gyroDropped, hkill, hts, hlt, ih.1, ih.2]
          · have hnd : ¬ gyroDropped (upd_gyro_rate s n32 c) su := fun hd => hlt hd.2
            rw [notify_gyro_raw_reduce env s g su n32 n64 c p (by simpa using hkill) hnd]
            refine ⟨?_, ?_⟩
            · by_cases hst : 100000 < u64sub n64 s.gyro_last_sample_us
              · simp [hkill, hts, hlt, hst, gyroDropped, dtsSum_append, dtsSum, gyro_dt_choice]
              · simp [hkill, hts, hlt, hst, gyroDropped, dtsSum_append, gyro_dt_choice, ih.1]
            · simp [hkill, hts, hlt, gyroDropped, ih.2]
    | deltaAngle d n32 n64 c p =>
      simp only [applyOp, ghostStep]
      by_cases hkill : s.killed = true
      · simp [_notify_new_delta_angle, hkill, ih.1, ih.2]
      · by_cases hrl : (upd_gyro_rate s n32 c).gyro_raw_sample_rate < 40
        · refine ⟨?_, ?_⟩ <;>
            simp [_notify_new_delta_angle, hkill, hrl, ih.1, ih.2]
        · unfold _notify_new_delta_angle
          dsimp only
          refine ⟨?_, ?_⟩
          · by_cases hst : 100000 < u64sub n64 s.gyro_last_sample_us
            · simp [hkill, hrl, hst, dtsSum_append, dtsSum]
            · simp [hkill, hrl, hst, dtsSum_append, ih.1]
          · simp [hkill, hrl, ih.2]
    | accelRaw a su n32 n64 c f =>
      simp only [applyOp, ghostStep]
      by_cases hkill : s.killed = true
      · simp [_notify_new_accel_raw_sample, hkill, ih.1, ih.2]
      · by_cases hts : su ≠ 0 ∧ s.accel_last_sample_us ≠ 0
        · rw [notify_accel_raw_reduce env s a su n32 n64 c f (by simpa using hkill) (Or.inl hts)]
          refine ⟨?_, ?_⟩
          · simp [hkill, hts, ih.1]
          · by_cases hst : 100000 < u64sub n64 s.accel_last_sample_us
            · simp [hkill, hts, hst, dtsSum_append, dtsSum, accel_dt_choice]
            · simp [hkill, hts, hst, dtsSum_append, accel_dt_choice, ih.2]
        · by_cases hrl : (upd_accel_rate s n32 c).accel_raw_sample_rate < 40
          · refine ⟨?_, ?_⟩ <;>
              simp [_notify_new_accel_raw_sample, hkill, hts, hrl, ih.1, ih.2]
          · rw [notify_accel_raw_reduce env s a su n32 n64 c f (by simpa using hkill) (Or.inr hrl)]
            refine ⟨?_, ?_⟩
            · simp [hkill, hts, hrl, ih.1]
            · by_cases hst : 100000 < u64sub n64 s.accel_last_sample_us
              · simp [hkill, hts, hrl, hst, dtsSum_append, dtsSum, accel_dt_choice]
              · simp [hkill, hts, hrl, hst, dtsSum_append, accel_dt_choice, ih.2]
    | deltaVel d n32 n64 c =>
      simp only [applyOp, ghostStep]
      by_cases hkill : s.killed = true
      · simp [_notify_new_delta_velocity, hkill, ih.1, ih.2]
      · by_cases hrl : (upd_accel_rate s n32 c).accel_raw_sample_rate < 40
        · refine ⟨?_, ?_⟩ <;>
            simp [_notify_new_delta_velocity, hkill, hrl, ih.1, ih.2]
        · unfold _notify_new_delta_velocity
          dsimp only
          refine ⟨?_, ?_⟩
          · simp [hkill, hrl, ih.1]
          · by_cases hst : 100000 < u64sub n64 s.accel_last_sample_us
            · simp [hkill, hrl, hst, dtsSum_append, dtsSum]
            · simp [hkill, hrl, hst, dtsSum_append, ih.2]
    | updGyro c =>
      simp only [applyOp, ghostStep]
      by_cases hkill : s.killed = true
      · simp [update_gyro, hkill, ih.1, ih.2]
      · by_cases hnew : s.new_gyro_data = true
        · refine ⟨?_, ?_⟩ <;>
            simp [update_gyro, _publish_gyro, hkill, hnew, dtsSum, ih.2]
        · refine ⟨?_, ?_⟩ <;> simp [update_gyro, hkill, hnew, ih.1, ih.2]
    | updAccel =>
      simp only [applyOp, ghostStep]
      by_cases hkill : s.killed = true
      · simp [update_accel, hkill, ih.1, ih.2]
      · by_cases hnew : s.new_accel_data = true
        · refine ⟨?_, ?_⟩ <;>
            simp [update_accel, _publish_accel, hkill, hnew, dtsSum, ih.1]
        · refine ⟨?_, ?_⟩ <;> simp [update_accel, hkill, hnew, ih.1, ih.2]
    | gyroFifoReset =>
      simp [applyOp, ghostStep, notify_gyro_fifo_reset, ih.1, ih.2]
    | accelFifoReset =>
      simp [applyOp, ghostStep, notify_accel_fifo_reset, ih.1, ih.2]
    | updPrimary n32 p =>
      simp [applyOp, ghostStep, ih.1, ih.2]

/-- Witness for C9: the invariant at the state reached by one concrete step
from a zero-initialised state. -/
theorem claim_C9_witness :
    (applyOp envU (Op.gyroRaw ⟨1, 0, 0⟩ 0 5 6 false 0) st0).delta_angle_acc_dt =
      dtsSum (ghostStep envU (Op.gyroRaw ⟨1, 0, 0⟩ 0 5 6 false 0) st0 ⟨[], []⟩).gyroDts ∧
    (applyOp envU (Op.gyroRaw ⟨1, 0, 0⟩ 0 5 6 false 0) st0).delta_velocity_acc_dt =
      dtsSum (ghostStep envU (Op.gyroRaw ⟨1, 0, 0⟩ 0 5 6 false 0) st0 ⟨[], []⟩).accelDts := by
  exact claim_C9 envU _ _
    (Reachable.step (Op.gyroRaw ⟨1, 0, 0⟩ 0 5 6 false 0) (Reachable.init st0 rfl rfl))

/-- Witness for C8 at a concrete state: becoming primary fires exactly one
notification and the immediate repeat fires none. -/
theorem claim_C8_witness :
    (update_primary envU st0 5 0).2 = true ∧
    (update_primary envU st0 5 0).1 =
      { st0 with is_primary := true, last_primary_update_us := 5 } ∧
    (update_primary envU (update_primary envU st0 5 0).1 5 0).2 = false := by
  have h := claim_C8 envU st0 5 0
  have ht : (update_primary envU st0 5 0).2 = true := h.1.mpr (Or.inl (by decide))
  refine ⟨ht, ?_, h.2.2.2⟩
  rw [h.2.1 ht]
  rfl
